import Mathlib

/-!
Shallow embedding of the suncalc3 astronomical computation core
(src/src/index.ts, plus the bundled original suncalc variant in
src/unnamed/part_000) over the real numbers, together with theorems
checking the specification's claims against it.

Conventions of the embedding:
* JavaScript numbers are modelled as real numbers (idealised arithmetic).
* `Math.atan2 y x` is modelled by `Complex.arg ⟨x, y⟩`, whose range
  `(-π, π]` and sign conventions match the JavaScript function.
* `Math.acos` returns NaN off `[-1, 1]`, and division by zero produces
  an infinity that also turns the surrounding `acos` into NaN.  The
  embedding makes that observable through the explicit predicate
  `hourAngleSolvable`: the branch the source selects with `isNaN` is
  selected here with that predicate.
* `Date`-based day-boundary snapping (`setHours(12,0,0,0)`) is calendar
  and timezone glue outside the numeric core; functions that follow it
  take the already-snapped timestamp as their input.
-/

namespace SunCalc3

open Real

/-- Math.atan2, modelled through the argument of the complex number x + y*I,
whose range and quadrant conventions agree with the JavaScript builtin. -/
noncomputable def atan2 (y x : ℝ) : ℝ := Complex.arg ⟨x, y⟩

-- Constants of src/src/index.ts (lines 150-166).
noncomputable def rad : ℝ := π / 180

noncomputable def degr : ℝ := 180 / π

def dayMs : ℝ := 86400000

noncomputable def J1970 : ℝ := 2440587.5

def J2000 : ℝ := 2451545

def lunarDaysMs : ℝ := 2551442778

def firstNewMoon2000 : ℝ := 947178840000

noncomputable def e : ℝ := rad * 23.4397

noncomputable def J0 : ℝ := 0.0009

-- Utility functions (index.ts lines 168-274).
noncomputable def fromJulianDay (j : ℝ) : ℝ := (j - J1970) * dayMs

noncomputable def toDays (dateValue : ℝ) : ℝ := ((dateValue / dayMs) + J1970) - J2000

noncomputable def rightAscension (l b : ℝ) : ℝ :=
  atan2 (sin l * cos e - tan b * sin e) (cos l)

noncomputable def declination (l b : ℝ) : ℝ :=
  arcsin (sin b * cos e + cos b * sin e * sin l)

noncomputable def azimuthCalc (H phi dec : ℝ) : ℝ :=
  atan2 (sin H) (cos H * sin phi - tan dec * cos phi) + π

noncomputable def altitudeCalc (H phi dec : ℝ) : ℝ :=
  arcsin (sin phi * sin dec + cos phi * cos dec * cos H)

noncomputable def siderealTime (d lw : ℝ) : ℝ := rad * (280.16 + 360.9856235 * d) - lw

/-- Meeus refraction formula; the source clamps a negative altitude to 0
before applying it. -/
noncomputable def astroRefraction (h : ℝ) : ℝ :=
  let h0 := if h < 0 then 0 else h
  0.0002967 / Real.tan (h0 + 0.00312536 / (h0 + 0.08901179))

noncomputable def solarMeanAnomaly (d : ℝ) : ℝ := rad * (357.5291 + 0.98560028 * d)

noncomputable def eclipticLongitude (M : ℝ) : ℝ :=
  let C := rad * (1.9148 * sin M + 0.02 * sin (2 * M) + 0.0003 * sin (3 * M))
  let P := rad * 102.9372
  M + C + P + π

structure ISunCoordinates where
  dec : ℝ
  ra : ℝ

noncomputable def sunCoords (d : ℝ) : ISunCoordinates :=
  let M := solarMeanAnomaly d
  let L := eclipticLongitude M
  { dec := declination L 0, ra := rightAscension L 0 }

/-- Math.round rounds half away from zero upward, i.e. floor (x + 1/2). -/
noncomputable def jsRound (x : ℝ) : ℝ := (⌊x + 1 / 2⌋ : ℤ)

noncomputable def julianCycle (d lw : ℝ) : ℝ := jsRound (d - J0 - lw / (2 * π))

noncomputable def approxTransit (Ht lw n : ℝ) : ℝ := J0 + (Ht + lw) / (2 * π) + n

noncomputable def solarTransitJ (ds M L : ℝ) : ℝ :=
  J2000 + ds + 0.0053 * sin M - 0.0069 * sin (2 * L)

noncomputable def hourAngle (h phi dec : ℝ) : ℝ :=
  arccos ((sin h - sin phi * sin dec) / (cos phi * cos dec))

/-- The condition under which the source's `acos` call (and hence `Jset`)
is a real number rather than NaN: the denominator of the hour-angle
right-hand side is nonzero and the right-hand side lies in [-1, 1]. -/
noncomputable def hourAngleSolvable (h phi dec : ℝ) : Prop :=
  cos phi * cos dec ≠ 0 ∧
    |(sin h - sin phi * sin dec) / (cos phi * cos dec)| ≤ 1

noncomputable def observerAngle (height : ℝ) : ℝ := -2.076 * Real.sqrt height / 60

noncomputable def getSetJ (h lw phi dec n M L : ℝ) : ℝ :=
  solarTransitJ (approxTransit (hourAngle h phi dec) lw n) M L

structure IMoonCoordinates where
  ra : ℝ
  dec : ℝ
  dist : ℝ

noncomputable def moonCoords (d : ℝ) : IMoonCoordinates :=
  let L := rad * (218.316 + 13.176396 * d)
  let M := rad * (134.963 + 13.064993 * d)
  let F := rad * (93.272 + 13.229350 * d)
  let l := L + rad * 6.289 * sin M
  let b := rad * 5.128 * sin F
  let dt := 385001 - 20905 * cos M
  { ra := rightAscension l b, dec := declination l b, dist := dt }

noncomputable def hoursLater (dateValue h : ℝ) : ℝ := dateValue + h * dayMs / 24

-- Sun times configuration (index.ts lines 276-301).
structure ISunTimeNames where
  angle : ℝ
  riseName : String
  setName : String
  risePos : Option ℝ
  setPos : Option ℝ

noncomputable def times : List ISunTimeNames :=
  [⟨6, "goldenHourDawnEnd", "goldenHourDuskStart", none, none⟩,
   ⟨-0.3, "sunriseEnd", "sunsetStart", none, none⟩,
   ⟨-0.833, "sunriseStart", "sunsetEnd", none, none⟩,
   ⟨-1, "goldenHourDawnStart", "goldenHourDuskEnd", none, none⟩,
   ⟨-4, "blueHourDawnEnd", "blueHourDuskStart", none, none⟩,
   ⟨-6, "civilDawn", "civilDusk", none, none⟩,
   ⟨-8, "blueHourDawnStart", "blueHourDuskEnd", none, none⟩,
   ⟨-12, "nauticalDawn", "nauticalDusk", none, none⟩,
   ⟨-15, "amateurDawn", "amateurDusk", none, none⟩,
   ⟨-18, "astronomicalDawn", "astronomicalDusk", none, none⟩]

def timesDeprecated : List (String × String) :=
  [("dawn", "civilDawn"),
   ("dusk", "civilDusk"),
   ("nightEnd", "astronomicalDawn"),
   ("night", "astronomicalDusk"),
   ("nightStart", "astronomicalDusk"),
   ("goldenHour", "goldenHourDuskStart"),
   ("sunrise", "sunriseStart"),
   ("sunset", "sunsetEnd"),
   ("goldenHourEnd", "goldenHourDawnEnd"),
   ("goldenHourStart", "goldenHourDuskStart")]

/-- Event record of the sun solvers (ISunTimeDef without the Date dual of
ts).  `valid` models the source's `!isNaN` flag. -/
structure ISunTimeDef where
  name : String
  ts : ℝ
  pos : ℤ
  elevation : Option ℝ
  julian : ℝ
  valid : Prop

/-!
Shared intermediate values of getSunTimes (lines 494-506) and getSunTime
(lines 599-608): both functions compute lw, phi, d, n, ds, M, L, dec and
Jnoon with identical formulas from the noon-snapped timestamp.
-/

noncomputable def sunDs (tnoon lng : ℝ) : ℝ :=
  approxTransit 0 (rad * -lng) (julianCycle (toDays tnoon) (rad * -lng))

noncomputable def sunM (tnoon lng : ℝ) : ℝ := solarMeanAnomaly (sunDs tnoon lng)

noncomputable def sunL (tnoon lng : ℝ) : ℝ := eclipticLongitude (sunM tnoon lng)

noncomputable def sunDec (tnoon lng : ℝ) : ℝ := declination (sunL tnoon lng) 0

noncomputable def sunJnoon (tnoon lng : ℝ) : ℝ :=
  solarTransitJ (sunDs tnoon lng) (sunM tnoon lng) (sunL tnoon lng)

open Classical in
/-- Body of the getSunTimes loop (lines 527-562) for one configured entry.
Returns the (set, rise) record pair.  The source computes `Jset`, replaces
it by `Jnoon + 0.5` when it is NaN (exactly when the hour-angle equation
has no real solution, see `hourAngleSolvable`), and always derives
`Jrise = Jnoon - (Jset - Jnoon)`. -/
noncomputable def sunTimesEntryPair (Jnoon lw phi dec n M L dh : ℝ) (len i : ℕ)
    (time : ISunTimeNames) : ISunTimeDef × ISunTimeDef :=
  let sa := time.angle
  let h0 := (sa + dh) * rad
  let valid := hourAngleSolvable h0 phi dec
  let Jset := if valid then getSetJ h0 lw phi dec n M L else Jnoon + 0.5
  let Jrise := Jnoon - (Jset - Jnoon)
  (⟨time.setName, fromJulianDay Jset, (len : ℤ) + i + 1, some sa, Jset, valid⟩,
   ⟨time.riseName, fromJulianDay Jrise, (len : ℤ) - i - 1, some sa, Jrise, valid⟩)

/-- The per-entry loop of getSunTimes over a configuration table, taking
the noon-snapped timestamp.  Entry i of the result is the (set, rise)
record pair of entry i of the table. -/
noncomputable def getSunTimesEntries (tnoon lat lng height : ℝ)
    (tbl : List ISunTimeNames) : List (ISunTimeDef × ISunTimeDef) :=
  tbl.enum.map fun p =>
    sunTimesEntryPair (sunJnoon tnoon lng) (rad * -lng) (rad * lat)
      (sunDec tnoon lng) (julianCycle (toDays tnoon) (rad * -lng))
      (sunM tnoon lng) (sunL tnoon lng) (observerAngle height) tbl.length p.1 p.2

/-!
Runtime extension of the event table (index.ts lines 425-451).  The two
process-wide mutable tables are threaded explicitly as a configuration
value; `addTime` returns the updated configuration and the boolean the
source returns.
-/

structure SunTimesConfig where
  times : List ISunTimeNames
  timesDeprecated : List (String × String)

/-- The initial configuration: the built-in `times` table and the
deprecated-alias table. -/
noncomputable def initialConfig : SunTimesConfig := ⟨times, timesDeprecated⟩

/-- The identifier test `EXP.test`, for the regular expression
given in the source as caret (?![0-9]) [a-zA-Z0-9$_]+ dollar: one or more
characters from the class, the first one not a digit. -/
def identOk (s : String) : Bool :=
  match s.data with
  | [] => false
  | c :: cs => !c.isDigit && (c :: cs).all fun ch => ch.isAlphanum || ch == '$' || ch == '_'

/-- The source loop returns false as soon as one existing entry fails the
conjunction of checks, i.e. it proceeds only when every entry passes:
`List.all`.  The backwards splice loop over timesDeprecated removes every
pair whose first component equals one of the new names: `List.filter`. -/
noncomputable def addTime (cfg : SunTimesConfig) (angleAltitude : ℝ)
    (riseName setName : String) (risePos setPos : Option ℝ) (degree : Bool) :
    SunTimesConfig × Bool :=
  if riseName.length > 0 && setName.length > 0 then
    if cfg.times.all (fun time =>
        identOk riseName && riseName != time.riseName && riseName != time.setName &&
        (identOk setName && setName != time.riseName && setName != time.setName)) then
      let angleDeg := if degree then angleAltitude else angleAltitude * (180 / π)
      (⟨cfg.times ++ [⟨angleDeg, riseName, setName, risePos, setPos⟩],
        cfg.timesDeprecated.filter fun td => !(td.1 == riseName || td.1 == setName)⟩,
       true)
    else (cfg, false)
  else (cfg, false)

/-- The rise and set names already present in a table. -/
def tableNames (tbl : List ISunTimeNames) : List String :=
  tbl.map ISunTimeNames.riseName ++ tbl.map ISunTimeNames.setName

/-- Phase bucket of the moonCycles table (index.ts lines 104-115).  The
source field `from` is a reserved word in Lean and is rendered `fromv`,
`to` is rendered `tov`; the display-only string fields emoji, code and
css carry no logic and are not modelled. -/
structure IPhaseObj where
  fromv : ℝ
  tov : ℝ
  id : String
  name : String
  weight : ℝ

/-- The fixed phase partition (index.ts lines 303-394). -/
noncomputable def moonCycles : List IPhaseObj :=
  [⟨0, 0.033863193308711, "newMoon", "New Moon", 1⟩,
   ⟨0.033863193308711, 0.216136806691289, "waxingCrescentMoon", "Waxing Crescent", 6.3825⟩,
   ⟨0.216136806691289, 0.283863193308711, "firstQuarterMoon", "First Quarter", 1⟩,
   ⟨0.283863193308711, 0.466136806691289, "waxingGibbousMoon", "Waxing Gibbous", 6.3825⟩,
   ⟨0.466136806691289, 0.533863193308711, "fullMoon", "Full Moon", 1⟩,
   ⟨0.533863193308711, 0.716136806691289, "waningGibbousMoon", "Waning Gibbous", 6.3825⟩,
   ⟨0.716136806691289, 0.783863193308711, "thirdQuarterMoon", "third Quarter", 1⟩,
   ⟨0.783863193308711, 0.966136806691289, "waningCrescentMoon", "Waning Crescent", 6.3825⟩,
   ⟨0.966136806691289, 1, "newMoon", "New Moon", 1⟩]

open Classical in
/-- A bucket claims a phase value when the scan condition of
getMoonIllumination (line 763), `from <= p && p <= to`, holds.
countClaims is the number of buckets claiming p. -/
noncomputable def countClaims (p : ℝ) : ℕ :=
  moonCycles.countP fun b => decide (b.fromv ≤ p ∧ p ≤ b.tov)

/-- The eight interior bucket boundaries of the partition of [0, 1). -/
def isPhaseBoundary (p : ℝ) : Prop :=
  p = 0.033863193308711 ∨ p = 0.216136806691289 ∨ p = 0.283863193308711 ∨
    p = 0.466136806691289 ∨ p = 0.533863193308711 ∨ p = 0.716136806691289 ∨
    p = 0.783863193308711 ∨ p = 0.966136806691289

/-- Target altitude actually used by getSunTime (line 610): the source
first converts the elevation angle to radians when `degree` is set
(line 590), then nevertheless treats the converted value as degrees,
subtracts 0.833 and adds the observer depression, and multiplies the sum
by rad once more. -/
noncomputable def getSunTimeH0 (elevationAngle height : ℝ) (degree : Bool) : ℝ :=
  ((if degree then elevationAngle * rad else elevationAngle) - 0.833 +
      observerAngle height) * rad

structure ISunTimeSingle where
  rise : ISunTimeDef
  set : ISunTimeDef

open Classical in
/-- getSunTime (lines 579-636), from the noon-snapped timestamp.  The
source leaves `Jset`/`Jrise` as NaN when the hour-angle equation has no
solution and reports that through `valid = !isNaN`; here `valid` is that
solvability condition and the julian fields are the total Lean values,
meaningful exactly when `valid` holds. -/
noncomputable def getSunTime (tnoon lat lng elevationAngle height : ℝ)
    (degree : Bool) : ISunTimeSingle :=
  let angle := if degree then elevationAngle * rad else elevationAngle
  let lw := rad * -lng
  let phi := rad * lat
  let dh := observerAngle height
  let n := julianCycle (toDays tnoon) lw
  let M := sunM tnoon lng
  let L := sunL tnoon lng
  let dec := sunDec tnoon lng
  let Jnoon := sunJnoon tnoon lng
  let h0 := (angle - 0.833 + dh) * rad
  let Jset := getSetJ h0 lw phi dec n M L
  let Jrise := Jnoon - (Jset - Jnoon)
  { set := ⟨"set", fromJulianDay Jset, 0, some angle, Jset,
      hourAngleSolvable h0 phi dec⟩
    rise := ⟨"rise", fromJulianDay Jrise, 1, some angle, Jrise,
      hourAngleSolvable h0 phi dec⟩ }

-- Position functions (index.ts lines 397-423 and 693-722).

structure ISunPosition where
  azimuth : ℝ
  altitude : ℝ
  zenith : ℝ
  azimuthDegrees : ℝ
  altitudeDegrees : ℝ
  zenithDegrees : ℝ
  declination : ℝ

/-- getPosition for a timestamp already taken as a number; the NaN guard
on latitude and longitude is the argument-validation tier and does not
arise over ℝ. -/
noncomputable def getPosition (timestamp lat lng : ℝ) : ISunPosition :=
  let lw := rad * -lng
  let phi := rad * lat
  let d := toDays timestamp
  let c := sunCoords d
  let H := siderealTime d lw - c.ra
  let azimuth := azimuthCalc H phi c.dec
  let altitude := altitudeCalc H phi c.dec
  { azimuth := azimuth
    altitude := altitude
    zenith := 90 * π / 180 - altitude
    azimuthDegrees := degr * azimuth
    altitudeDegrees := degr * altitude
    zenithDegrees := 90 - degr * altitude
    declination := c.dec }

structure IMoonPosition where
  azimuth : ℝ
  altitude : ℝ
  azimuthDegrees : ℝ
  altitudeDegrees : ℝ
  distance : ℝ
  parallacticAngle : ℝ
  parallacticAngleDegrees : ℝ

noncomputable def getMoonPosition (timestamp lat lng : ℝ) : IMoonPosition :=
  let lw := rad * -lng
  let phi := rad * lat
  let d := toDays timestamp
  let c := moonCoords d
  let H := siderealTime d lw - c.ra
  let altitude0 := altitudeCalc H phi c.dec
  let altitude := altitude0 + astroRefraction altitude0
  let pa := atan2 (sin H) (tan phi * cos c.dec - sin c.dec * cos H)
  let azimuth := azimuthCalc H phi c.dec
  { azimuth := azimuth
    altitude := altitude
    azimuthDegrees := degr * azimuth
    altitudeDegrees := degr * altitude
    distance := c.dist
    parallacticAngle := pa
    parallacticAngleDegrees := degr * pa }

/-- Fields of getMoonIllumination (index.ts lines 724-798) that feed the
claims: illuminated fraction, phase value, phase angle, and the bucket
found by the linear scan over moonCycles (the scan with break is
List.find?).  The next-phase block (lines 736-759 and the `next` record)
is independent arithmetic on the fixed synodic constants and is not
modelled here. -/
structure IMoonIlluminationCore where
  fraction : ℝ
  phase : Option IPhaseObj
  phaseValue : ℝ
  angle : ℝ

open Classical in
noncomputable def getMoonIllumination (timestamp : ℝ) : IMoonIlluminationCore :=
  let d := toDays timestamp
  let s := sunCoords d
  let m := moonCoords d
  let sdist : ℝ := 149598000
  let phi := arccos (sin s.dec * sin m.dec + cos s.dec * cos m.dec * cos (s.ra - m.ra))
  let inc := atan2 (sdist * sin phi) (m.dist - sdist * cos phi)
  let angle := atan2 (cos s.dec * sin (s.ra - m.ra))
    (sin s.dec * cos m.dec - cos s.dec * sin m.dec * cos (s.ra - m.ra))
  let phaseValue := 0.5 + 0.5 * inc * (if angle < 0 then -1 else 1) / π
  { fraction := (1 + cos inc) / 2
    phase := moonCycles.find? fun b => decide (b.fromv ≤ phaseValue ∧ phaseValue ≤ b.tov)
    phaseValue := phaseValue
    angle := angle }

/-!
Moon Event Solver (index.ts lines 811-887): state of the 2-hour window
scan and one loop iteration.  The day-boundary snapping
(`setHours(0,0,0,0)`) is calendar glue; the scan takes the snapped
timestamp.
-/

noncomputable def hc : ℝ := 0.133 * rad

structure ScanState where
  h0 : ℝ
  rise : Option ℝ
  set : Option ℝ
  ye : ℝ

/-- JavaScript truthiness of the optional rise/set hour values: truthy
when present and nonzero. -/
def jsTruthy : Option ℝ → Prop
  | none => False
  | some v => v ≠ 0

-- The window quantities of lines 837-847.
noncomputable def winA (h0 h1 h2 : ℝ) : ℝ := (h0 + h2) / 2 - h1

noncomputable def winB (h0 h2 : ℝ) : ℝ := (h2 - h0) / 2

noncomputable def winXe (h0 h1 h2 : ℝ) : ℝ := -winB h0 h2 / (2 * winA h0 h1 h2)

noncomputable def winYe (h0 h1 h2 : ℝ) : ℝ :=
  (winA h0 h1 h2 * winXe h0 h1 h2 + winB h0 h2) * winXe h0 h1 h2 + h1

noncomputable def winD (h0 h1 h2 : ℝ) : ℝ :=
  winB h0 h2 * winB h0 h2 - 4 * winA h0 h1 h2 * h1

noncomputable def winDx (h0 h1 h2 : ℝ) : ℝ :=
  Real.sqrt (winD h0 h1 h2) / (|winA h0 h1 h2| * 2)

noncomputable def winX1 (h0 h1 h2 : ℝ) : ℝ := winXe h0 h1 h2 - winDx h0 h1 h2

noncomputable def winX2 (h0 h1 h2 : ℝ) : ℝ := winXe h0 h1 h2 + winDx h0 h1 h2

open Classical in
/-- One iteration of the window loop (lines 833-867).  When `a = 0` the
source's `dx` is infinite and both candidate roots fall outside [-1, 1],
so no root is counted; Lean's division-by-zero convention would instead
yield finite candidates, hence the `a ≠ 0` conjunct on the branch keeps
the source behaviour of recording nothing in that degenerate window.
(The source's `ye` is NaN in that case; here it is the total value of
the same formula, which no recorded theorem relies on.) -/
noncomputable def windowStep (i : ℝ) (st : ScanState) (h1 h2 : ℝ) : ScanState :=
  let h0 := st.h0
  let ye := winYe h0 h1 h2
  if 0 ≤ winD h0 h1 h2 ∧ winA h0 h1 h2 ≠ 0 then
    let x1 := winX1 h0 h1 h2
    let x2 := winX2 h0 h1 h2
    let roots : ℕ := (if |x1| ≤ 1 then 1 else 0) + (if |x2| ≤ 1 then 1 else 0)
    let xr := if x1 < -1 then x2 else x1
    if roots = 1 then
      if h0 < 0 then ⟨h2, some (i + xr), st.set, ye⟩
      else ⟨h2, st.rise, some (i + xr), ye⟩
    else if roots = 2 then
      ⟨h2, some (i + if ye < 0 then x2 else x1),
        some (i + if ye < 0 then x1 else x2), ye⟩
    else ⟨h2, st.rise, st.set, ye⟩
  else ⟨h2, st.rise, st.set, ye⟩

open Classical in
/-- The loop over window start hours, with the source's early exit
`if (rise && set) break` checked after each iteration. -/
noncomputable def scanLoop (alt : ℕ → ℝ) : List ℕ → ScanState → ScanState
  | [], st => st
  | i :: rest, st =>
    let st2 := windowStep (i : ℝ) st (alt i) (alt (i + 1))
    if jsTruthy st2.rise ∧ jsTruthy st2.set then st2 else scanLoop alt rest st2

/-- The always-up/always-down classification of the result (lines
869-884): both flags are false unless neither a rise nor a set was
recorded (JS truthiness), in which case they follow the sign of the last
vertex altitude. -/
def moonTimesFlags (st : ScanState) : (Option ℝ × Option ℝ) × (Prop × Prop) :=
  ((st.rise, st.set),
    (¬ jsTruthy st.rise ∧ ¬ jsTruthy st.set ∧ 0 < st.ye,
     ¬ jsTruthy st.rise ∧ ¬ jsTruthy st.set ∧ st.ye ≤ 0))

/-- The sampled lunar altitude at hour offset k, minus the horizon-dip
constant hc. -/
noncomputable def moonAlt (t lat lng : ℝ) (k : ℕ) : ℝ :=
  (getMoonPosition (hoursLater t (k : ℝ)) lat lng).altitude - hc

/-- The getMoonTimes scan from the midnight-snapped timestamp: the
initial altitude is at the timestamp itself and the windows start at the
odd hours 1, 3, ..., 25.  (The source's `ye` is uninitialised before the
first window; the 0 here is never read because the window list is
nonempty.) -/
noncomputable def getMoonTimesScan (t lat lng : ℝ) : ScanState :=
  scanLoop (moonAlt t lat lng) ((List.range 13).map fun j => 2 * j + 1)
    ⟨(getMoonPosition t lat lng).altitude - hc, none, none, 0⟩

noncomputable def getMoonTimes (t lat lng : ℝ) :
    (Option ℝ × Option ℝ) × (Prop × Prop) :=
  moonTimesFlags (getMoonTimesScan t lat lng)

end SunCalc3

open SunCalc3 in
/-- Counterexample for C2: the boundary value 0.033863193308711 lies in
[0, 1) yet is claimed by two buckets of moonCycles (new moon and waxing
crescent), because the scan condition is inclusive at both ends; so it is
false that every phase value in [0, 1) is claimed by exactly one bucket. -/
theorem moonCycles_boundary_overlap_cex :
    (0 : ℝ) ≤ 0.033863193308711 ∧ (0.033863193308711 : ℝ) < 1 ∧
      countClaims 0.033863193308711 = 2 ∧ ¬ countClaims 0.033863193308711 = 1 := by
  have h2 : countClaims 0.033863193308711 = 2 := by
    norm_num [countClaims, moonCycles, List.countP_cons, List.countP_nil]
  refine ⟨by norm_num, by norm_num, h2, by rw [h2]; norm_num⟩

namespace SunCalcJS

/-!
The bundled original suncalc source (src/unnamed/part_000).  Its julian
conversions use the integer epoch constant 2440588 together with explicit
half-day offsets.
-/

def dayMs : ℝ := 1000 * 60 * 60 * 24

def J1970 : ℝ := 2440588

def J2000 : ℝ := 2451545

noncomputable def toJulian (dateValue : ℝ) : ℝ := dateValue / dayMs - 0.5 + J1970

noncomputable def fromJulian (j : ℝ) : ℝ := (j + 0.5 - J1970) * dayMs

noncomputable def toDays (dateValue : ℝ) : ℝ := toJulian dateValue - J2000

end SunCalcJS

open SunCalc3 Real in
/-- C4: for every instant, location, height and configured twilight entry
in getSunTimes, the computed rise and set julian days are equidistant from
solar noon: Jnoon - Jrise = Jset - Jnoon. -/
theorem sunTimes_rise_set_symmetry (tnoon lat lng height : ℝ)
    (tbl : List ISunTimeNames) (p : ISunTimeDef × ISunTimeDef)
    (hp : p ∈ getSunTimesEntries tnoon lat lng height tbl) :
    sunJnoon tnoon lng - p.2.julian = p.1.julian - sunJnoon tnoon lng := by
  simp only [getSunTimesEntries, List.mem_map] at hp
  obtain ⟨q, hq, rfl⟩ := hp
  unfold sunTimesEntryPair
  dsimp only
  ring

open SunCalc3 Real in
/-- Witness for C4 at a concrete instant, location and table. -/
theorem sunTimes_rise_set_symmetry_witness :
    sunJnoon 0 0 -
        (sunTimesEntryPair (sunJnoon 0 0) (rad * -0) (rad * 0) (sunDec 0 0)
          (julianCycle (toDays 0) (rad * -0)) (sunM 0 0) (sunL 0 0)
          (observerAngle 0) 1 0 ⟨6, "r", "s", none, none⟩).2.julian =
      (sunTimesEntryPair (sunJnoon 0 0) (rad * -0) (rad * 0) (sunDec 0 0)
          (julianCycle (toDays 0) (rad * -0)) (sunM 0 0) (sunL 0 0)
          (observerAngle 0) 1 0 ⟨6, "r", "s", none, none⟩).1.julian -
        sunJnoon 0 0 :=
  sunTimes_rise_set_symmetry 0 0 0 0 [⟨6, "r", "s", none, none⟩] _
    (by simp [getSunTimesEntries, sunJnoon, sunDs, sunM, sunL, sunDec, List.enum])

open SunCalc3 Real in
/-- C3: in the getSunTimes loop, a twilight entry whose hour-angle
equation has no real solution gets its set event assigned nadir's julian
day Jnoon + 0.5 and marked invalid, and its rise event placed
symmetrically at Jnoon - 0.5 and likewise marked invalid; the loop body
is total, so no error is raised for this condition. -/
theorem sunTimes_polar_fallback (Jnoon lw phi dec n M L dh : ℝ) (len i : ℕ)
    (time : ISunTimeNames)
    (hns : ¬ hourAngleSolvable ((time.angle + dh) * rad) phi dec) :
    (sunTimesEntryPair Jnoon lw phi dec n M L dh len i time).1.julian = Jnoon + 0.5 ∧
      ¬ (sunTimesEntryPair Jnoon lw phi dec n M L dh len i time).1.valid ∧
      (sunTimesEntryPair Jnoon lw phi dec n M L dh len i time).2.julian = Jnoon - 0.5 ∧
      ¬ (sunTimesEntryPair Jnoon lw phi dec n M L dh len i time).2.valid := by
  unfold sunTimesEntryPair
  dsimp only
  rw [if_neg hns]
  exact ⟨rfl, hns, by ring, hns⟩

open SunCalc3 Real in
/-- Witness for C3 at the pole (phi = π/2), where the hour-angle equation
degenerates. -/
theorem sunTimes_polar_fallback_witness :
    (sunTimesEntryPair 0 0 (π / 2) 0 0 0 0 0 10 0 ⟨6, "r", "s", none, none⟩).1.julian =
        0 + 0.5 ∧
      ¬ (sunTimesEntryPair 0 0 (π / 2) 0 0 0 0 0 10 0 ⟨6, "r", "s", none, none⟩).1.valid ∧
      (sunTimesEntryPair 0 0 (π / 2) 0 0 0 0 0 10 0 ⟨6, "r", "s", none, none⟩).2.julian =
        0 - 0.5 ∧
      ¬ (sunTimesEntryPair 0 0 (π / 2) 0 0 0 0 0 10 0 ⟨6, "r", "s", none, none⟩).2.valid :=
  sunTimes_polar_fallback 0 0 (π / 2) 0 0 0 0 0 10 0 ⟨6, "r", "s", none, none⟩
    (fun h => h.1 (by simp [Real.cos_pi_div_two]))

namespace SunCalc3

lemma identOk_length_pos {s : String} (h : identOk s = true) : 0 < s.length := by
  have hlen : s.length = s.data.length := rfl
  unfold identOk at h
  rcases hd : s.data with _ | ⟨c, cs⟩
  · rw [hd] at h
    simp at h
  · rw [hlen, hd]
    simp

lemma mem_tableNames {nm : String} {tbl : List ISunTimeNames} :
    nm ∈ tableNames tbl ↔ ∃ t ∈ tbl, nm = t.riseName ∨ nm = t.setName := by
  simp only [tableNames, List.mem_append, List.mem_map]
  constructor
  · rintro (⟨t, ht, rfl⟩ | ⟨t, ht, rfl⟩)
    · exact ⟨t, ht, Or.inl rfl⟩
    · exact ⟨t, ht, Or.inr rfl⟩
  · rintro ⟨t, ht, rfl | rfl⟩
    · exact Or.inl ⟨t, ht, rfl⟩
    · exact Or.inr ⟨t, ht, rfl⟩

/-- When some requested name is malformed or collides, the per-entry check
of addTime fails on a nonempty table. -/
lemma addTime_checks_false {cfg : SunTimesConfig} (hne : cfg.times ≠ [])
    {rn sn : String}
    (hbad : identOk rn = false ∨ identOk sn = false ∨
      rn ∈ tableNames cfg.times ∨ sn ∈ tableNames cfg.times) :
    ¬ ((cfg.times.all fun time =>
        identOk rn && rn != time.riseName && rn != time.setName &&
          (identOk sn && sn != time.riseName && sn != time.setName)) = true) := by
  intro h2
  rw [List.all_eq_true] at h2
  obtain ⟨t0, ht0⟩ := List.exists_mem_of_ne_nil cfg.times hne
  have hP0 := h2 t0 ht0
  simp only [Bool.and_eq_true, bne_iff_ne] at hP0
  obtain ⟨⟨⟨hro, _⟩, _⟩, ⟨hso, _⟩, _⟩ := hP0
  rcases hbad with hb | hb | hb | hb
  · rw [hro] at hb; cases hb
  · rw [hso] at hb; cases hb
  · obtain ⟨t, ht, hteq⟩ := mem_tableNames.mp hb
    have hP := h2 t ht
    simp only [Bool.and_eq_true, bne_iff_ne] at hP
    obtain ⟨⟨⟨_, hr1⟩, hr2⟩, _⟩ := hP
    rcases hteq with rfl | rfl
    · exact hr1 rfl
    · exact hr2 rfl
  · obtain ⟨t, ht, hteq⟩ := mem_tableNames.mp hb
    have hP := h2 t ht
    simp only [Bool.and_eq_true, bne_iff_ne] at hP
    obtain ⟨_, ⟨_, hs1⟩, hs2⟩ := hP
    rcases hteq with rfl | rfl
    · exact hs1 rfl
    · exact hs2 rfl

end SunCalc3

set_option maxHeartbeats 1600000 in
open SunCalc3 in
/-- C2 (amended): the moonCycles table covers [0, 1) with no gap: every
phase value in [0, 1) is claimed by at least one bucket; a value off the
eight interior boundaries is claimed by exactly one bucket, while a value
on an interior boundary is claimed by exactly two (the adjacent buckets),
since the scan condition is inclusive at both ends. -/
theorem moonCycles_partition_amended (p : ℝ) (hp0 : 0 ≤ p) (hp1 : p < 1) :
    1 ≤ countClaims p ∧ (¬ isPhaseBoundary p → countClaims p = 1) ∧
      (isPhaseBoundary p → countClaims p = 2) := by
  rcases lt_trichotomy p 0.033863193308711 with h1 | h1 | h1
  · have hc : countClaims p = 1 := by
      have d0 : (0:ℝ) ≤ p ∧ p ≤ 0.033863193308711 := ⟨hp0, by linarith⟩
      have d1 : ¬((0.033863193308711:ℝ) ≤ p ∧ p ≤ 0.216136806691289) := by
        rintro ⟨ha, hb⟩; linarith
      have d2 : ¬((0.216136806691289:ℝ) ≤ p ∧ p ≤ 0.283863193308711) := by
        rintro ⟨ha, hb⟩; linarith
      have d3 : ¬((0.283863193308711:ℝ) ≤ p ∧ p ≤ 0.466136806691289) := by
        rintro ⟨ha, hb⟩; linarith
      have d4 : ¬((0.466136806691289:ℝ) ≤ p ∧ p ≤ 0.533863193308711) := by
        rintro ⟨ha, hb⟩; linarith
      have d5 : ¬((0.533863193308711:ℝ) ≤ p ∧ p ≤ 0.716136806691289) := by
        rintro ⟨ha, hb⟩; linarith
      have d6 : ¬((0.716136806691289:ℝ) ≤ p ∧ p ≤ 0.783863193308711) := by
        rintro ⟨ha, hb⟩; linarith
      have d7 : ¬((0.783863193308711:ℝ) ≤ p ∧ p ≤ 0.966136806691289) := by
        rintro ⟨ha, hb⟩; linarith
      have d8 : ¬((0.966136806691289:ℝ) ≤ p ∧ p ≤ 1) := by
        rintro ⟨ha, hb⟩; linarith
      simp [countClaims, moonCycles, List.countP_cons, List.countP_nil,
        d0, d1, d2, d3, d4, d5, d6, d7, d8]
    have hnb : ¬ isPhaseBoundary p := by
      rintro (rfl | rfl | rfl | rfl | rfl | rfl | rfl | rfl) <;> linarith
    exact ⟨by simp [hc], fun _ => hc, fun hb => absurd hb hnb⟩
  · subst h1
    have hc : countClaims (0.033863193308711 : ℝ) = 2 := by
      norm_num [countClaims, moonCycles, List.countP_cons, List.countP_nil]
    exact ⟨by simp [hc], fun hn => absurd (Or.inl rfl) hn, fun _ => hc⟩
  · rcases lt_trichotomy p 0.216136806691289 with h2 | h2 | h2
    · have hc : countClaims p = 1 := by
        have d0 : ¬((0:ℝ) ≤ p ∧ p ≤ 0.033863193308711) := by
          rintro ⟨ha, hb⟩; linarith
        have d1 : (0.033863193308711:ℝ) ≤ p ∧ p ≤ 0.216136806691289 :=
          ⟨by linarith, by linarith⟩
        have d2 : ¬((0.216136806691289:ℝ) ≤ p ∧ p ≤ 0.283863193308711) := by
          rintro ⟨ha, hb⟩; linarith
        have d3 : ¬((0.283863193308711:ℝ) ≤ p ∧ p ≤ 0.466136806691289) := by
          rintro ⟨ha, hb⟩; linarith
        have d4 : ¬((0.466136806691289:ℝ) ≤ p ∧ p ≤ 0.533863193308711) := by
          rintro ⟨ha, hb⟩; linarith
        have d5 : ¬((0.533863193308711:ℝ) ≤ p ∧ p ≤ 0.716136806691289) := by
          rintro ⟨ha, hb⟩; linarith
        have d6 : ¬((0.716136806691289:ℝ) ≤ p ∧ p ≤ 0.783863193308711) := by
          rintro ⟨ha, hb⟩; linarith
        have d7 : ¬((0.783863193308711:ℝ) ≤ p ∧ p ≤ 0.966136806691289) := by
          rintro ⟨ha, hb⟩; linarith
        have d8 : ¬((0.966136806691289:ℝ) ≤ p ∧ p ≤ 1) := by
          rintro ⟨ha, hb⟩; linarith
        simp [countClaims, moonCycles, List.countP_cons, List.countP_nil,
          d0, d1, d2, d3, d4, d5, d6, d7, d8]
      have hnb : ¬ isPhaseBoundary p := by
        rintro (rfl | rfl | rfl | rfl | rfl | rfl | rfl | rfl) <;> linarith
      exact ⟨by simp [hc], fun _ => hc, fun hb => absurd hb hnb⟩
    · subst h2
      have hc : countClaims (0.216136806691289 : ℝ) = 2 := by
        norm_num [countClaims, moonCycles, List.countP_cons, List.countP_nil]
      exact ⟨by simp [hc], fun hn => absurd (Or.inr (Or.inl rfl)) hn, fun _ => hc⟩
    · rcases lt_trichotomy p 0.283863193308711 with h3 | h3 | h3
      · have hc : countClaims p = 1 := by
          have d0 : ¬((0:ℝ) ≤ p ∧ p ≤ 0.033863193308711) := by
            rintro ⟨ha, hb⟩; linarith
          have d1 : ¬((0.033863193308711:ℝ) ≤ p ∧ p ≤ 0.216136806691289) := by
            rintro ⟨ha, hb⟩; linarith
          have d2 : (0.216136806691289:ℝ) ≤ p ∧ p ≤ 0.283863193308711 :=
            ⟨by linarith, by linarith⟩
          have d3 : ¬((0.283863193308711:ℝ) ≤ p ∧ p ≤ 0.466136806691289) := by
            rintro ⟨ha, hb⟩; linarith
          have d4 : ¬((0.466136806691289:ℝ) ≤ p ∧ p ≤ 0.533863193308711) := by
            rintro ⟨ha, hb⟩; linarith
          have d5 : ¬((0.533863193308711:ℝ) ≤ p ∧ p ≤ 0.716136806691289) := by
            rintro ⟨ha, hb⟩; linarith
          have d6 : ¬((0.716136806691289:ℝ) ≤ p ∧ p ≤ 0.783863193308711) := by
            rintro ⟨ha, hb⟩; linarith
          have d7 : ¬((0.783863193308711:ℝ) ≤ p ∧ p ≤ 0.966136806691289) := by
            rintro ⟨ha, hb⟩; linarith
          have d8 : ¬((0.966136806691289:ℝ) ≤ p ∧ p ≤ 1) := by
            rintro ⟨ha, hb⟩; linarith
          simp [countClaims, moonCycles, List.countP_cons, List.countP_nil,
            d0, d1, d2, d3, d4, d5, d6, d7, d8]
        have hnb : ¬ isPhaseBoundary p := by
          rintro (rfl | rfl | rfl | rfl | rfl | rfl | rfl | rfl) <;> linarith
        exact ⟨by simp [hc], fun _ => hc, fun hb => absurd hb hnb⟩
      · subst h3
        have hc : countClaims (0.283863193308711 : ℝ) = 2 := by
          norm_num [countClaims, moonCycles, List.countP_cons, List.countP_nil]
        exact ⟨by simp [hc], fun hn => absurd (Or.inr (Or.inr (Or.inl rfl))) hn,
          fun _ => hc⟩
      · rcases lt_trichotomy p 0.466136806691289 with h4 | h4 | h4
        · have hc : countClaims p = 1 := by
            have d0 : ¬((0:ℝ) ≤ p ∧ p ≤ 0.033863193308711) := by
              rintro ⟨ha, hb⟩; linarith
            have d1 : ¬((0.033863193308711:ℝ) ≤ p ∧ p ≤ 0.216136806691289) := by
              rintro ⟨ha, hb⟩; linarith
            have d2 : ¬((0.216136806691289:ℝ) ≤ p ∧ p ≤ 0.283863193308711) := by
              rintro ⟨ha, hb⟩; linarith
            have d3 : (0.283863193308711:ℝ) ≤ p ∧ p ≤ 0.466136806691289 :=
              ⟨by linarith, by linarith⟩
            have d4 : ¬((0.466136806691289:ℝ) ≤ p ∧ p ≤ 0.533863193308711) := by
              rintro ⟨ha, hb⟩; linarith
            have d5 : ¬((0.533863193308711:ℝ) ≤ p ∧ p ≤ 0.716136806691289) := by
              rintro ⟨ha, hb⟩; linarith
            have d6 : ¬((0.716136806691289:ℝ) ≤ p ∧ p ≤ 0.783863193308711) := by
              rintro ⟨ha, hb⟩; linarith
            have d7 : ¬((0.783863193308711:ℝ) ≤ p ∧ p ≤ 0.966136806691289) := by
              rintro ⟨ha, hb⟩; linarith
            have d8 : ¬((0.966136806691289:ℝ) ≤ p ∧ p ≤ 1) := by
              rintro ⟨ha, hb⟩; linarith
            simp [countClaims, moonCycles, List.countP_cons, List.countP_nil,
              d0, d1, d2, d3, d4, d5, d6, d7, d8]
          have hnb : ¬ isPhaseBoundary p := by
            rintro (rfl | rfl | rfl | rfl | rfl | rfl | rfl | rfl) <;> linarith
          exact ⟨by simp [hc], fun _ => hc, fun hb => absurd hb hnb⟩
        · subst h4
          have hc : countClaims (0.466136806691289 : ℝ) = 2 := by
            norm_num [countClaims, moonCycles, List.countP_cons, List.countP_nil]
          exact ⟨by simp [hc],
            fun hn => absurd (Or.inr (Or.inr (Or.inr (Or.inl rfl)))) hn, fun _ => hc⟩
        · rcases lt_trichotomy p 0.533863193308711 with h5 | h5 | h5
          · have hc : countClaims p = 1 := by
              have d0 : ¬((0:ℝ) ≤ p ∧ p ≤ 0.033863193308711) := by
                rintro ⟨ha, hb⟩; linarith
              have d1 : ¬((0.033863193308711:ℝ) ≤ p ∧ p ≤ 0.216136806691289) := by
                rintro ⟨ha, hb⟩; linarith
              have d2 : ¬((0.216136806691289:ℝ) ≤ p ∧ p ≤ 0.283863193308711) := by
                rintro ⟨ha, hb⟩; linarith
              have d3 : ¬((0.283863193308711:ℝ) ≤ p ∧ p ≤ 0.466136806691289) := by
                rintro ⟨ha, hb⟩; linarith
              have d4 : (0.466136806691289:ℝ) ≤ p ∧ p ≤ 0.533863193308711 :=
                ⟨by linarith, by linarith⟩
              have d5 : ¬((0.533863193308711:ℝ) ≤ p ∧ p ≤ 0.716136806691289) := by
                rintro ⟨ha, hb⟩; linarith
              have d6 : ¬((0.716136806691289:ℝ) ≤ p ∧ p ≤ 0.783863193308711) := by
                rintro ⟨ha, hb⟩; linarith
              have d7 : ¬((0.783863193308711:ℝ) ≤ p ∧ p ≤ 0.966136806691289) := by
                rintro ⟨ha, hb⟩; linarith
              have d8 : ¬((0.966136806691289:ℝ) ≤ p ∧ p ≤ 1) := by
                rintro ⟨ha, hb⟩; linarith
              simp [countClaims, moonCycles, List.countP_cons, List.countP_nil,
                d0, d1, d2, d3, d4, d5, d6, d7, d8]
            have hnb : ¬ isPhaseBoundary p := by
              rintro (rfl | rfl | rfl | rfl | rfl | rfl | rfl | rfl) <;> linarith
            exact ⟨by simp [hc], fun _ => hc, fun hb => absurd hb hnb⟩
          · subst h5
            have hc : countClaims (0.533863193308711 : ℝ) = 2 := by
              norm_num [countClaims, moonCycles, List.countP_cons, List.countP_nil]
            exact ⟨by simp [hc],
              fun hn => absurd (Or.inr (Or.inr (Or.inr (Or.inr (Or.inl rfl))))) hn,
              fun _ => hc⟩
          · rcases lt_trichotomy p 0.716136806691289 with h6 | h6 | h6
            · have hc : countClaims p = 1 := by
                have d0 : ¬((0:ℝ) ≤ p ∧ p ≤ 0.033863193308711) := by
                  rintro ⟨ha, hb⟩; linarith
                have d1 : ¬((0.033863193308711:ℝ) ≤ p ∧ p ≤ 0.216136806691289) := by
                  rintro ⟨ha, hb⟩; linarith
                have d2 : ¬((0.216136806691289:ℝ) ≤ p ∧ p ≤ 0.283863193308711) := by
                  rintro ⟨ha, hb⟩; linarith
                have d3 : ¬((0.283863193308711:ℝ) ≤ p ∧ p ≤ 0.466136806691289) := by
                  rintro ⟨ha, hb⟩; linarith
                have d4 : ¬((0.466136806691289:ℝ) ≤ p ∧ p ≤ 0.533863193308711) := by
                  rintro ⟨ha, hb⟩; linarith
                have d5 : (0.533863193308711:ℝ) ≤ p ∧ p ≤ 0.716136806691289 :=
                  ⟨by linarith, by linarith⟩
                have d6 : ¬((0.716136806691289:ℝ) ≤ p ∧ p ≤ 0.783863193308711) := by
                  rintro ⟨ha, hb⟩; linarith
                have d7 : ¬((0.783863193308711:ℝ) ≤ p ∧ p ≤ 0.966136806691289) := by
                  rintro ⟨ha, hb⟩; linarith
                have d8 : ¬((0.966136806691289:ℝ) ≤ p ∧ p ≤ 1) := by
                  rintro ⟨ha, hb⟩; linarith
                simp [countClaims, moonCycles, List.countP_cons, List.countP_nil,
                  d0, d1, d2, d3, d4, d5, d6, d7, d8]
              have hnb : ¬ isPhaseBoundary p := by
                rintro (rfl | rfl | rfl | rfl | rfl | rfl | rfl | rfl) <;> linarith
              exact ⟨by simp [hc], fun _ => hc, fun hb => absurd hb hnb⟩
            · subst h6
              have hc : countClaims (0.716136806691289 : ℝ) = 2 := by
                norm_num [countClaims, moonCycles, List.countP_cons, List.countP_nil]
              exact ⟨by simp [hc],
                fun hn =>
                  absurd (Or.inr (Or.inr (Or.inr (Or.inr (Or.inr (Or.inl rfl)))))) hn,
                fun _ => hc⟩
            · rcases lt_trichotomy p 0.783863193308711 with h7 | h7 | h7
              · have hc : countClaims p = 1 := by
                  have d0 : ¬((0:ℝ) ≤ p ∧ p ≤ 0.033863193308711) := by
                    rintro ⟨ha, hb⟩; linarith
                  have d1 : ¬((0.033863193308711:ℝ) ≤ p ∧ p ≤ 0.216136806691289) := by
                    rintro ⟨ha, hb⟩; linarith
                  have d2 : ¬((0.216136806691289:ℝ) ≤ p ∧ p ≤ 0.283863193308711) := by
                    rintro ⟨ha, hb⟩; linarith
                  have d3 : ¬((0.283863193308711:ℝ) ≤ p ∧ p ≤ 0.466136806691289) := by
                    rintro ⟨ha, hb⟩; linarith
                  have d4 : ¬((0.466136806691289:ℝ) ≤ p ∧ p ≤ 0.533863193308711) := by
                    rintro ⟨ha, hb⟩; linarith
                  have d5 : ¬((0.533863193308711:ℝ) ≤ p ∧ p ≤ 0.716136806691289) := by
                    rintro ⟨ha, hb⟩; linarith
                  have d6 : (0.716136806691289:ℝ) ≤ p ∧ p ≤ 0.783863193308711 :=
                    ⟨by linarith, by linarith⟩
                  have d7 : ¬((0.783863193308711:ℝ) ≤ p ∧ p ≤ 0.966136806691289) := by
                    rintro ⟨ha, hb⟩; linarith
                  have d8 : ¬((0.966136806691289:ℝ) ≤ p ∧ p ≤ 1) := by
                    rintro ⟨ha, hb⟩; linarith
                  simp [countClaims, moonCycles, List.countP_cons, List.countP_nil,
                    d0, d1, d2, d3, d4, d5, d6, d7, d8]
                have hnb : ¬ isPhaseBoundary p := by
                  rintro (rfl | rfl | rfl | rfl | rfl | rfl | rfl | rfl) <;> linarith
                exact ⟨by simp [hc], fun _ => hc, fun hb => absurd hb hnb⟩
              · subst h7
                have hc : countClaims (0.783863193308711 : ℝ) = 2 := by
                  norm_num [countClaims, moonCycles, List.countP_cons, List.countP_nil]
                exact ⟨by simp [hc],
                  fun hn =>
                    absurd
                      (Or.inr (Or.inr (Or.inr (Or.inr (Or.inr (Or.inr (Or.inl rfl)))))))
                      hn,
                  fun _ => hc⟩
              · rcases lt_trichotomy p 0.966136806691289 with h8 | h8 | h8
                · have hc : countClaims p = 1 := by
                    have d0 : ¬((0:ℝ) ≤ p ∧ p ≤ 0.033863193308711) := by
                      rintro ⟨ha, hb⟩; linarith
                    have d1 : ¬((0.033863193308711:ℝ) ≤ p ∧ p ≤ 0.216136806691289) := by
                      rintro ⟨ha, hb⟩; linarith
                    have d2 : ¬((0.216136806691289:ℝ) ≤ p ∧ p ≤ 0.283863193308711) := by
                      rintro ⟨ha, hb⟩; linarith
                    have d3 : ¬((0.283863193308711:ℝ) ≤ p ∧ p ≤ 0.466136806691289) := by
                      rintro ⟨ha, hb⟩; linarith
                    have d4 : ¬((0.466136806691289:ℝ) ≤ p ∧ p ≤ 0.533863193308711) := by
                      rintro ⟨ha, hb⟩; linarith
                    have d5 : ¬((0.533863193308711:ℝ) ≤ p ∧ p ≤ 0.716136806691289) := by
                      rintro ⟨ha, hb⟩; linarith
                    have d6 : ¬((0.716136806691289:ℝ) ≤ p ∧ p ≤ 0.783863193308711) := by
                      rintro ⟨ha, hb⟩; linarith
                    have d7 : (0.783863193308711:ℝ) ≤ p ∧ p ≤ 0.966136806691289 :=
                      ⟨by linarith, by linarith⟩
                    have d8 : ¬((0.966136806691289:ℝ) ≤ p ∧ p ≤ 1) := by
                      rintro ⟨ha, hb⟩; linarith
                    simp [countClaims, moonCycles, List.countP_cons, List.countP_nil,
                      d0, d1, d2, d3, d4, d5, d6, d7, d8]
                  have hnb : ¬ isPhaseBoundary p := by
                    rintro (rfl | rfl | rfl | rfl | rfl | rfl | rfl | rfl) <;> linarith
                  exact ⟨by simp [hc], fun _ => hc, fun hb => absurd hb hnb⟩
                · subst h8
                  have hc : countClaims (0.966136806691289 : ℝ) = 2 := by
                    norm_num [countClaims, moonCycles, List.countP_cons, List.countP_nil]
                  exact ⟨by simp [hc],
                    fun hn =>
                      absurd
                        (Or.inr (Or.inr (Or.inr (Or.inr (Or.inr (Or.inr
                          (Or.inr rfl)))))))
                        hn,
                    fun _ => hc⟩
                · have hc : countClaims p = 1 := by
                    have d0 : ¬((0:ℝ) ≤ p ∧ p ≤ 0.033863193308711) := by
                      rintro ⟨ha, hb⟩; linarith
                    have d1 : ¬((0.033863193308711:ℝ) ≤ p ∧ p ≤ 0.216136806691289) := by
                      rintro ⟨ha, hb⟩; linarith
                    have d2 : ¬((0.216136806691289:ℝ) ≤ p ∧ p ≤ 0.283863193308711) := by
                      rintro ⟨ha, hb⟩; linarith
                    have d3 : ¬((0.283863193308711:ℝ) ≤ p ∧ p ≤ 0.466136806691289) := by
                      rintro ⟨ha, hb⟩; linarith
                    have d4 : ¬((0.466136806691289:ℝ) ≤ p ∧ p ≤ 0.533863193308711) := by
                      rintro ⟨ha, hb⟩; linarith
                    have d5 : ¬((0.533863193308711:ℝ) ≤ p ∧ p ≤ 0.716136806691289) := by
                      rintro ⟨ha, hb⟩; linarith
                    have d6 : ¬((0.716136806691289:ℝ) ≤ p ∧ p ≤ 0.783863193308711) := by
                      rintro ⟨ha, hb⟩; linarith
                    have d7 : ¬((0.783863193308711:ℝ) ≤ p ∧ p ≤ 0.966136806691289) := by
                      rintro ⟨ha, hb⟩; linarith
                    have d8 : (0.966136806691289:ℝ) ≤ p ∧ p ≤ 1 :=
                      ⟨by linarith, by linarith⟩
                    simp [countClaims, moonCycles, List.countP_cons, List.countP_nil,
                      d0, d1, d2, d3, d4, d5, d6, d7, d8]
                  have hnb : ¬ isPhaseBoundary p := by
                    rintro (rfl | rfl | rfl | rfl | rfl | rfl | rfl | rfl) <;> linarith
                  exact ⟨by simp [hc], fun _ => hc, fun hb => absurd hb hnb⟩

open SunCalc3 in
/-- Witness for C2 (amended) at the concrete phase value 0. -/
theorem moonCycles_partition_amended_witness :
    1 ≤ countClaims 0 ∧ (¬ isPhaseBoundary 0 → countClaims 0 = 1) ∧
      (isPhaseBoundary 0 → countClaims 0 = 2) :=
  moonCycles_partition_amended 0 (le_refl 0) zero_lt_one

open SunCalc3 Real in
/-- C8: addTime returns false and leaves the configuration unchanged
whenever the proposed rise or set name fails the identifier pattern or
collides with a rise or set name already in the (possibly extended)
table; otherwise it appends the entry and returns true. -/
theorem addTime_validation (cfg : SunTimesConfig) (hne : cfg.times ≠ [])
    (a : ℝ) (rn sn : String) (rp sp : Option ℝ) (deg : Bool) :
    ((identOk rn = false ∨ identOk sn = false ∨
        rn ∈ tableNames cfg.times ∨ sn ∈ tableNames cfg.times) →
      addTime cfg a rn sn rp sp deg = (cfg, false)) ∧
    (identOk rn = true → identOk sn = true →
      rn ∉ tableNames cfg.times → sn ∉ tableNames cfg.times →
      (addTime cfg a rn sn rp sp deg).2 = true ∧
        (addTime cfg a rn sn rp sp deg).1.times =
          cfg.times ++ [⟨if deg then a else a * (180 / π), rn, sn, rp, sp⟩]) := by
  constructor
  · intro hbad
    unfold addTime
    by_cases hlen : (rn.length > 0 && sn.length > 0) = true
    · rw [if_pos hlen, if_neg (addTime_checks_false hne hbad)]
    · rw [if_neg hlen]
  · intro hro hso hrn hsn
    have hlen : (rn.length > 0 && sn.length > 0) = true := by
      simp only [Bool.and_eq_true, decide_eq_true_eq]
      exact ⟨identOk_length_pos hro, identOk_length_pos hso⟩
    have hall : (cfg.times.all fun time =>
        identOk rn && rn != time.riseName && rn != time.setName &&
          (identOk sn && sn != time.riseName && sn != time.setName)) = true := by
      rw [List.all_eq_true]
      intro t ht
      simp only [Bool.and_eq_true, bne_iff_ne]
      refine ⟨⟨⟨hro, ?_⟩, ?_⟩, ⟨hso, ?_⟩, ?_⟩ <;> intro hf
      · exact hrn (mem_tableNames.mpr ⟨t, ht, Or.inl hf⟩)
      · exact hrn (mem_tableNames.mpr ⟨t, ht, Or.inr hf⟩)
      · exact hsn (mem_tableNames.mpr ⟨t, ht, Or.inl hf⟩)
      · exact hsn (mem_tableNames.mpr ⟨t, ht, Or.inr hf⟩)
    unfold addTime
    rw [if_pos hlen, if_pos hall]
    exact ⟨rfl, rfl⟩

open SunCalc3 Real in
/-- Witness for C8: adding an entry whose rise name collides with the
existing name sunriseStart is rejected and leaves the table unchanged. -/
theorem addTime_validation_witness :
    addTime initialConfig 3 ("sunriseStart") ("customDusk") none none true =
      (initialConfig, false) :=
  (addTime_validation initialConfig (by simp [initialConfig, times]) 3
      ("sunriseStart") ("customDusk") none none true).1
    (Or.inr (Or.inr (Or.inl (by simp [initialConfig, times, tableNames]))))

open SunCalc3 Real in
/-- C9: when addTime succeeds it appends exactly the new entry to the
event table and removes from the deprecated-alias table exactly those
aliases whose deprecated name equals the new rise or set name; everything
else in both tables is unchanged. -/
theorem addTime_success_frame (cfg cfg' : SunTimesConfig) (a : ℝ) (rn sn : String)
    (rp sp : Option ℝ) (deg : Bool)
    (h : addTime cfg a rn sn rp sp deg = (cfg', true)) :
    cfg'.times = cfg.times ++ [⟨if deg then a else a * (180 / π), rn, sn, rp, sp⟩] ∧
      cfg'.timesDeprecated =
        cfg.timesDeprecated.filter (fun td => !(td.1 == rn || td.1 == sn)) ∧
      ∀ td : String × String,
        td ∈ cfg'.timesDeprecated ↔
          (td ∈ cfg.timesDeprecated ∧ td.1 ≠ rn ∧ td.1 ≠ sn) := by
  unfold addTime at h
  by_cases hlen : (rn.length > 0 && sn.length > 0) = true
  · rw [if_pos hlen] at h
    by_cases hall : (cfg.times.all fun time =>
        identOk rn && rn != time.riseName && rn != time.setName &&
          (identOk sn && sn != time.riseName && sn != time.setName)) = true
    · rw [if_pos hall] at h
      have hc := congrArg Prod.fst h
      dsimp only at hc
      refine ⟨?_, ?_, fun td => ?_⟩
      · rw [← hc]
      · rw [← hc]
      · rw [← hc]
        show td ∈ cfg.timesDeprecated.filter (fun td => !(td.1 == rn || td.1 == sn)) ↔ _
        simp only [List.mem_filter, Bool.not_eq_true']
        constructor
        · rintro ⟨hmem, hpred⟩
          simp only [Bool.or_eq_false_iff, beq_eq_false_iff_ne] at hpred
          exact ⟨hmem, hpred.1, hpred.2⟩
        · rintro ⟨hmem, hpred1, hpred2⟩
          refine ⟨hmem, ?_⟩
          simp only [Bool.or_eq_false_iff, beq_eq_false_iff_ne]
          exact ⟨hpred1, hpred2⟩
    · rw [if_neg hall] at h
      exact absurd (congrArg Prod.snd h) (by simp)
  · rw [if_neg hlen] at h
    exact absurd (congrArg Prod.snd h) (by simp)

open SunCalc3 Real in
/-- Witness for C9: registering an entry named goldenHour succeeds and
drops the deprecated alias of the same name. -/
theorem addTime_success_frame_witness :
    (addTime initialConfig 3 ("goldenHour") ("customDusk") none none true).1.times =
        initialConfig.times ++
          [⟨if true then 3 else 3 * (180 / π), "goldenHour", "customDusk", none, none⟩] ∧
      (("goldenHour", "goldenHourDuskStart") ∈
          (addTime initialConfig 3 ("goldenHour") ("customDusk") none none true).1.timesDeprecated ↔
        (("goldenHour", "goldenHourDuskStart") ∈ initialConfig.timesDeprecated ∧
          "goldenHour" ≠ "goldenHour" ∧ "goldenHour" ≠ "customDusk")) := by
  have h := addTime_success_frame initialConfig
    (addTime initialConfig 3 ("goldenHour") ("customDusk") none none true).1
    3 ("goldenHour") ("customDusk") none none true rfl
  exact ⟨h.1, h.2.2 ("goldenHour", "goldenHourDuskStart")⟩

namespace SunCalc3

open Real

lemma atan2_nonneg {y x : ℝ} (hy : 0 ≤ y) : 0 ≤ atan2 y x :=
  Complex.arg_nonneg_iff.mpr hy

lemma atan2_le_pi (y x : ℝ) : atan2 y x ≤ π := Complex.arg_le_pi _

lemma neg_pi_lt_atan2 (y x : ℝ) : -π < atan2 y x := Complex.neg_pi_lt_arg _

/-- The phase-value formula maps an inclination in [0, π] and a sign in
{-1, 1} into [0, 1]. -/
lemma phaseValue_bounds {inc s : ℝ} (hinc0 : 0 ≤ inc) (hincp : inc ≤ π)
    (hs : s = -1 ∨ s = 1) :
    0 ≤ 0.5 + 0.5 * inc * s / π ∧ 0.5 + 0.5 * inc * s / π ≤ 1 := by
  have hπ : (0:ℝ) < π := Real.pi_pos
  have hq0 : 0 ≤ inc / π := div_nonneg hinc0 hπ.le
  have hq1 : inc / π ≤ 1 := (div_le_one hπ).mpr hincp
  rcases hs with rfl | rfl
  · have he : 0.5 + 0.5 * inc * (-1) / π = 0.5 - 0.5 * (inc / π) := by ring
    rw [he]
    constructor <;> linarith
  · have he : 0.5 + 0.5 * inc * 1 / π = 0.5 + 0.5 * (inc / π) := by ring
    rw [he]
    constructor <;> linarith

open Classical in
/-- Any value of [0, 1] is claimed by some bucket of moonCycles, so the
linear scan finds one. -/
lemma find_bucket {p : ℝ} (h0 : 0 ≤ p) (h1 : p ≤ 1) :
    (moonCycles.find? fun b => decide (b.fromv ≤ p ∧ p ≤ b.tov)).isSome = true := by
  rw [List.find?_isSome]
  rcases le_or_lt p 0.033863193308711 with h | hgt1
  · exact ⟨⟨0, 0.033863193308711, "newMoon", "New Moon", 1⟩, by simp [moonCycles],
      by simp only [decide_eq_true_eq]; exact ⟨h0, h⟩⟩
  rcases le_or_lt p 0.216136806691289 with h | hgt2
  · exact ⟨⟨0.033863193308711, 0.216136806691289, "waxingCrescentMoon",
        "Waxing Crescent", 6.3825⟩, by simp [moonCycles],
      by simp only [decide_eq_true_eq]; exact ⟨hgt1.le, h⟩⟩
  rcases le_or_lt p 0.283863193308711 with h | hgt3
  · exact ⟨⟨0.216136806691289, 0.283863193308711, "firstQuarterMoon",
        "First Quarter", 1⟩, by simp [moonCycles],
      by simp only [decide_eq_true_eq]; exact ⟨hgt2.le, h⟩⟩
  rcases le_or_lt p 0.466136806691289 with h | hgt4
  · exact ⟨⟨0.283863193308711, 0.466136806691289, "waxingGibbousMoon",
        "Waxing Gibbous", 6.3825⟩, by simp [moonCycles],
      by simp only [decide_eq_true_eq]; exact ⟨hgt3.le, h⟩⟩
  rcases le_or_lt p 0.533863193308711 with h | hgt5
  · exact ⟨⟨0.466136806691289, 0.533863193308711, "fullMoon", "Full Moon", 1⟩,
      by simp [moonCycles], by simp only [decide_eq_true_eq]; exact ⟨hgt4.le, h⟩⟩
  rcases le_or_lt p 0.716136806691289 with h | hgt6
  · exact ⟨⟨0.533863193308711, 0.716136806691289, "waningGibbousMoon",
        "Waning Gibbous", 6.3825⟩, by simp [moonCycles],
      by simp only [decide_eq_true_eq]; exact ⟨hgt5.le, h⟩⟩
  rcases le_or_lt p 0.783863193308711 with h | hgt7
  · exact ⟨⟨0.716136806691289, 0.783863193308711, "thirdQuarterMoon",
        "third Quarter", 1⟩, by simp [moonCycles],
      by simp only [decide_eq_true_eq]; exact ⟨hgt6.le, h⟩⟩
  rcases le_or_lt p 0.966136806691289 with h | hgt8
  · exact ⟨⟨0.783863193308711, 0.966136806691289, "waningCrescentMoon",
        "Waning Crescent", 6.3825⟩, by simp [moonCycles],
      by simp only [decide_eq_true_eq]; exact ⟨hgt7.le, h⟩⟩
  · exact ⟨⟨0.966136806691289, 1, "newMoon", "New Moon", 1⟩, by simp [moonCycles],
      by simp only [decide_eq_true_eq]; exact ⟨hgt8.le, h1⟩⟩

end SunCalc3

open SunCalc3 Real in
/-- C10: for every input instant, the phaseValue computed by
getMoonIllumination lies in [0, 1] (the atan2-derived inclination lies in
[0, π] because its first argument is nonnegative), hence the scan over
moonCycles finds a bucket and the phase field is never undefined. -/
theorem moonIllumination_phase_total (t : ℝ) :
    0 ≤ (getMoonIllumination t).phaseValue ∧
      (getMoonIllumination t).phaseValue ≤ 1 ∧
      ((getMoonIllumination t).phase).isSome = true := by
  have key : ∀ u : ℝ, 0 ≤ 0.5 + 0.5 * atan2 (149598000 * sin (arccos u))
        ((moonCoords (toDays t)).dist - 149598000 * cos (arccos u)) *
        (if atan2 (cos (sunCoords (toDays t)).dec *
            sin ((sunCoords (toDays t)).ra - (moonCoords (toDays t)).ra))
          (sin (sunCoords (toDays t)).dec * cos (moonCoords (toDays t)).dec -
            cos (sunCoords (toDays t)).dec * sin (moonCoords (toDays t)).dec *
              cos ((sunCoords (toDays t)).ra - (moonCoords (toDays t)).ra)) < 0
          then (-1:ℝ) else 1) / π ∧
      0.5 + 0.5 * atan2 (149598000 * sin (arccos u))
        ((moonCoords (toDays t)).dist - 149598000 * cos (arccos u)) *
        (if atan2 (cos (sunCoords (toDays t)).dec *
            sin ((sunCoords (toDays t)).ra - (moonCoords (toDays t)).ra))
          (sin (sunCoords (toDays t)).dec * cos (moonCoords (toDays t)).dec -
            cos (sunCoords (toDays t)).dec * sin (moonCoords (toDays t)).dec *
              cos ((sunCoords (toDays t)).ra - (moonCoords (toDays t)).ra)) < 0
          then (-1:ℝ) else 1) / π ≤ 1 := by
    intro u
    have hy : 0 ≤ 149598000 * sin (arccos u) :=
      mul_nonneg (by norm_num)
        (sin_nonneg_of_nonneg_of_le_pi (arccos_nonneg u) (arccos_le_pi u))
    have hs : (if atan2 (cos (sunCoords (toDays t)).dec *
          sin ((sunCoords (toDays t)).ra - (moonCoords (toDays t)).ra))
        (sin (sunCoords (toDays t)).dec * cos (moonCoords (toDays t)).dec -
          cos (sunCoords (toDays t)).dec * sin (moonCoords (toDays t)).dec *
            cos ((sunCoords (toDays t)).ra - (moonCoords (toDays t)).ra)) < 0
        then (-1:ℝ) else 1) = -1 ∨
        (if atan2 (cos (sunCoords (toDays t)).dec *
          sin ((sunCoords (toDays t)).ra - (moonCoords (toDays t)).ra))
        (sin (sunCoords (toDays t)).dec * cos (moonCoords (toDays t)).dec -
          cos (sunCoords (toDays t)).dec * sin (moonCoords (toDays t)).dec *
            cos ((sunCoords (toDays t)).ra - (moonCoords (toDays t)).ra)) < 0
        then (-1:ℝ) else 1) = 1 := by
      split_ifs
      · exact Or.inl rfl
      · exact Or.inr rfl
    exact phaseValue_bounds (atan2_nonneg hy) (atan2_le_pi _ _) hs
  have h := key (sin (sunCoords (toDays t)).dec * sin (moonCoords (toDays t)).dec +
    cos (sunCoords (toDays t)).dec * cos (moonCoords (toDays t)).dec *
      cos ((sunCoords (toDays t)).ra - (moonCoords (toDays t)).ra))
  refine ⟨h.1, h.2, ?_⟩
  exact find_bucket h.1 h.2

namespace SunCalc3

open Real in
/-- The obliquity constant lies strictly inside (0, π/2). -/
lemma e_bounds : 0 < e ∧ e < π / 2 := by
  unfold e rad
  have hπ := Real.pi_pos
  constructor <;> nlinarith

open Real in
/-- The solar declination is the arcsine of a product strictly inside
(-1, 1), so its cosine is positive; in particular the hour-angle
denominator cannot vanish from the declination factor. -/
lemma cos_sunDec_pos (tnoon lng : ℝ) : 0 < Real.cos (sunDec tnoon lng) := by
  unfold sunDec declination
  simp only [Real.sin_zero, Real.cos_zero, zero_mul, one_mul, zero_add]
  rw [Real.cos_arcsin]
  apply Real.sqrt_pos.mpr
  have hce : 0 < Real.cos e := by
    apply Real.cos_pos_of_mem_Ioo
    constructor
    · linarith [e_bounds.1, Real.pi_pos]
    · exact e_bounds.2
  have hsl := Real.sin_sq_le_one (sunL tnoon lng)
  nlinarith [Real.sin_sq_add_cos_sq e, sq_nonneg (Real.sin e),
    sq_nonneg (Real.sin e * Real.sin (sunL tnoon lng)), mul_pos hce hce]

end SunCalc3

open SunCalc3 Real in
/-- Counterexample for C1: with angleInDegrees = false, height 0 and
elevation angle 0.5 radians, the altitude getSunTime targets in the
hour-angle equation is ((0.5 - 0.833) * π/180), which is negative and in
particular not the requested 0.5 adjusted only by the (zero) observer
height offset; its sine, the numerator of the solved equation, also
differs. -/
theorem sunTime_target_altitude_cex :
    getSunTimeH0 0.5 0 false ≠ 0.5 + observerAngle 0 ∧
      sin (getSunTimeH0 0.5 0 false) < 0 ∧ 0 < sin (0.5 + observerAngle 0) := by
  have hobs : observerAngle 0 = 0 := by
    unfold observerAngle
    rw [Real.sqrt_zero]
    ring
  have hπ := Real.pi_pos
  have hval : getSunTimeH0 0.5 0 false = -(0.333 * (π / 180)) := by
    unfold getSunTimeH0 rad
    rw [hobs]
    simp only [Bool.false_eq_true, if_false]
    ring
  have hneg : getSunTimeH0 0.5 0 false < 0 := by
    rw [hval]
    nlinarith
  refine ⟨?_, ?_, ?_⟩
  · rw [hobs]
    intro he
    rw [he] at hneg
    norm_num at hneg
  · apply Real.sin_neg_of_neg_of_neg_pi_lt hneg
    rw [hval]
    nlinarith
  · rw [hobs, add_zero]
    apply Real.sin_pos_of_pos_of_lt_pi (by norm_num)
    nlinarith [Real.pi_gt_d6]

open SunCalc3 Real in
/-- C1 (amended): getSunTime returns events solved from the hour-angle
equation cos H = (sin h0 - sin lat' * sin dec) / (cos lat' * cos dec)
whose target altitude h0 is ((angle - 0.833 + dh) * π/180), where angle
is the elevation angle after the optional degree-to-radian conversion
and dh the observer-height depression in degrees — not the given
elevation angle adjusted only by the height offset.  Whenever that
equation is solvable, the set julian day is the solar transit at the
arccosine hour angle, the rise julian day is its mirror about solar
noon, and both events are marked valid. -/
theorem sunTime_solves_shifted_hour_angle (tnoon lat lng elev ht : ℝ) (degree : Bool)
    (hsolv : hourAngleSolvable (getSunTimeH0 elev ht degree) (rad * lat)
      (sunDec tnoon lng)) :
    cos (hourAngle (getSunTimeH0 elev ht degree) (rad * lat) (sunDec tnoon lng)) =
        (sin (((if degree then elev * rad else elev) - 0.833 + observerAngle ht) * rad) -
            sin (rad * lat) * sin (sunDec tnoon lng)) /
          (cos (rad * lat) * cos (sunDec tnoon lng)) ∧
      (getSunTime tnoon lat lng elev ht degree).set.julian =
        solarTransitJ
          (approxTransit
            (hourAngle (getSunTimeH0 elev ht degree) (rad * lat) (sunDec tnoon lng))
            (rad * -lng) (julianCycle (toDays tnoon) (rad * -lng)))
          (sunM tnoon lng) (sunL tnoon lng) ∧
      (getSunTime tnoon lat lng elev ht degree).rise.julian =
        sunJnoon tnoon lng -
          ((getSunTime tnoon lat lng elev ht degree).set.julian - sunJnoon tnoon lng) ∧
      (getSunTime tnoon lat lng elev ht degree).set.valid ∧
      (getSunTime tnoon lat lng elev ht degree).rise.valid := by
  refine ⟨?_, rfl, rfl, hsolv, hsolv⟩
  unfold hourAngle
  exact Real.cos_arccos (abs_le.mp hsolv.2).1 (abs_le.mp hsolv.2).2

open SunCalc3 Real in
/-- Witness for C1 (amended) at the equator with elevation angle 0.833
and height 0, where the code's target altitude is exactly 0 and the
hour-angle equation is solvable. -/
theorem sunTime_solves_shifted_hour_angle_witness :
    cos (hourAngle (getSunTimeH0 0.833 0 false) (rad * 0) (sunDec 0 0)) =
        (sin (((if false then 0.833 * rad else 0.833) - 0.833 + observerAngle 0) * rad) -
            sin (rad * 0) * sin (sunDec 0 0)) /
          (cos (rad * 0) * cos (sunDec 0 0)) ∧
      (getSunTime 0 0 0 0.833 0 false).set.julian =
        solarTransitJ
          (approxTransit
            (hourAngle (getSunTimeH0 0.833 0 false) (rad * 0) (sunDec 0 0))
            (rad * -0) (julianCycle (toDays 0) (rad * -0)))
          (sunM 0 0) (sunL 0 0) ∧
      (getSunTime 0 0 0 0.833 0 false).rise.julian =
        sunJnoon 0 0 - ((getSunTime 0 0 0 0.833 0 false).set.julian - sunJnoon 0 0) ∧
      (getSunTime 0 0 0 0.833 0 false).set.valid ∧
      (getSunTime 0 0 0 0.833 0 false).rise.valid := by
  have hh0 : getSunTimeH0 0.833 0 false = 0 := by
    unfold getSunTimeH0 observerAngle
    rw [Real.sqrt_zero]
    norm_num
  apply sunTime_solves_shifted_hour_angle 0 0 0 0.833 0 false
  constructor
  · rw [mul_zero, Real.cos_zero, one_mul]
    exact ne_of_gt (cos_sunDec_pos 0 0)
  · rw [hh0, mul_zero]
    simp

namespace SunCalc3

lemma winDx_nonneg (h0 h1 h2 : ℝ) : 0 ≤ winDx h0 h1 h2 := by
  unfold winDx
  exact div_nonneg (Real.sqrt_nonneg _) (mul_nonneg (abs_nonneg _) (by norm_num))

lemma winX1_le_winX2 (h0 h1 h2 : ℝ) : winX1 h0 h1 h2 ≤ winX2 h0 h1 h2 := by
  unfold winX1 winX2
  linarith [winDx_nonneg h0 h1 h2]

/-- The smaller quadratic-formula candidate is a root of the window
parabola a x^2 + b x + h1. -/
lemma win_root1 (h0 h1 h2 : ℝ) (ha : winA h0 h1 h2 ≠ 0) (hd : 0 ≤ winD h0 h1 h2) :
    winA h0 h1 h2 * winX1 h0 h1 h2 ^ 2 + winB h0 h2 * winX1 h0 h1 h2 + h1 = 0 := by
  have habs : |winA h0 h1 h2| ≠ 0 := fun hz => ha (abs_eq_zero.mp hz)
  have hsq : Real.sqrt (winD h0 h1 h2) ^ 2 = winD h0 h1 h2 := Real.sq_sqrt hd
  have hstep : 2 * winA h0 h1 h2 * winX1 h0 h1 h2 + winB h0 h2 =
      -(winA h0 h1 h2 / |winA h0 h1 h2|) * Real.sqrt (winD h0 h1 h2) := by
    unfold winX1 winXe winDx
    field_simp
    ring
  have hsq1 : (2 * winA h0 h1 h2 * winX1 h0 h1 h2 + winB h0 h2) ^ 2 =
      winD h0 h1 h2 := by
    rw [hstep, neg_mul, neg_sq, mul_pow, div_pow, sq_abs,
      div_self (pow_ne_zero 2 ha), one_mul, hsq]
  have hfin : 4 * winA h0 h1 h2 *
      (winA h0 h1 h2 * winX1 h0 h1 h2 ^ 2 + winB h0 h2 * winX1 h0 h1 h2 + h1) = 0 := by
    have hexp : 4 * winA h0 h1 h2 *
        (winA h0 h1 h2 * winX1 h0 h1 h2 ^ 2 + winB h0 h2 * winX1 h0 h1 h2 + h1) =
        (2 * winA h0 h1 h2 * winX1 h0 h1 h2 + winB h0 h2) ^ 2 -
          (winB h0 h2 * winB h0 h2 - 4 * winA h0 h1 h2 * h1) := by ring
    rw [hexp, hsq1]
    unfold winD
    ring
  rcases mul_eq_zero.mp hfin with h | h
  · exact absurd (by linarith : winA h0 h1 h2 = 0) ha
  · exact h

/-- The larger quadratic-formula candidate is a root of the window
parabola as well. -/
lemma win_root2 (h0 h1 h2 : ℝ) (ha : winA h0 h1 h2 ≠ 0) (hd : 0 ≤ winD h0 h1 h2) :
    winA h0 h1 h2 * winX2 h0 h1 h2 ^ 2 + winB h0 h2 * winX2 h0 h1 h2 + h1 = 0 := by
  have habs : |winA h0 h1 h2| ≠ 0 := fun hz => ha (abs_eq_zero.mp hz)
  have hsq : Real.sqrt (winD h0 h1 h2) ^ 2 = winD h0 h1 h2 := Real.sq_sqrt hd
  have hstep : 2 * winA h0 h1 h2 * winX2 h0 h1 h2 + winB h0 h2 =
      winA h0 h1 h2 / |winA h0 h1 h2| * Real.sqrt (winD h0 h1 h2) := by
    unfold winX2 winXe winDx
    field_simp
    ring
  have hsq1 : (2 * winA h0 h1 h2 * winX2 h0 h1 h2 + winB h0 h2) ^ 2 =
      winD h0 h1 h2 := by
    rw [hstep, mul_pow, div_pow, sq_abs, div_self (pow_ne_zero 2 ha), one_mul, hsq]
  have hfin : 4 * winA h0 h1 h2 *
      (winA h0 h1 h2 * winX2 h0 h1 h2 ^ 2 + winB h0 h2 * winX2 h0 h1 h2 + h1) = 0 := by
    have hexp : 4 * winA h0 h1 h2 *
        (winA h0 h1 h2 * winX2 h0 h1 h2 ^ 2 + winB h0 h2 * winX2 h0 h1 h2 + h1) =
        (2 * winA h0 h1 h2 * winX2 h0 h1 h2 + winB h0 h2) ^ 2 -
          (winB h0 h2 * winB h0 h2 - 4 * winA h0 h1 h2 * h1) := by ring
    rw [hexp, hsq1]
    unfold winD
    ring
  rcases mul_eq_zero.mp hfin with h | h
  · exact absurd (by linarith : winA h0 h1 h2 = 0) ha
  · exact h

/-- When only the larger candidate is in range, the smaller one lies
below -1, which is the case the source's `if (x1 < -1) x1 = x2`
replacement handles. -/
lemma winX1_lt_neg_one {h0 h1 h2 : ℝ}
    (h1out : ¬ |winX1 h0 h1 h2| ≤ 1) (h2in : |winX2 h0 h1 h2| ≤ 1) :
    winX1 h0 h1 h2 < -1 := by
  rcases lt_or_le (winX1 h0 h1 h2) (-1) with h | h
  · exact h
  · exfalso
    exact h1out (abs_le.mpr ⟨h, le_trans (winX1_le_winX2 h0 h1 h2)
      (abs_le.mp h2in).2⟩)

end SunCalc3

open SunCalc3 Real in
/-- C6: in the moon scan, the candidates x1 <= x2 are genuine roots of
the window parabola; a window with exactly one in-range root records a
rise when the window's starting altitude h0 is negative and a set
otherwise; a window with two in-range roots records both, the smaller
root as set exactly when the vertex altitude ye is negative; a window
with no in-range root records nothing; and when the whole scan recorded
no rise and no set, the result reports alwaysUp exactly when the last
vertex altitude is positive and alwaysDown exactly when it is
non-positive. -/
theorem moonTimes_window_classification (i h0 h1 h2 : ℝ) (r s : Option ℝ) (y : ℝ)
    (ha : winA h0 h1 h2 ≠ 0) (hd : 0 ≤ winD h0 h1 h2) :
    (winX1 h0 h1 h2 ≤ winX2 h0 h1 h2 ∧
      winA h0 h1 h2 * winX1 h0 h1 h2 ^ 2 + winB h0 h2 * winX1 h0 h1 h2 + h1 = 0 ∧
      winA h0 h1 h2 * winX2 h0 h1 h2 ^ 2 + winB h0 h2 * winX2 h0 h1 h2 + h1 = 0) ∧
    (|winX1 h0 h1 h2| ≤ 1 → ¬ |winX2 h0 h1 h2| ≤ 1 →
      (h0 < 0 → windowStep i ⟨h0, r, s, y⟩ h1 h2 =
          ⟨h2, some (i + winX1 h0 h1 h2), s, winYe h0 h1 h2⟩) ∧
      (¬ h0 < 0 → windowStep i ⟨h0, r, s, y⟩ h1 h2 =
          ⟨h2, r, some (i + winX1 h0 h1 h2), winYe h0 h1 h2⟩)) ∧
    (¬ |winX1 h0 h1 h2| ≤ 1 → |winX2 h0 h1 h2| ≤ 1 →
      (h0 < 0 → windowStep i ⟨h0, r, s, y⟩ h1 h2 =
          ⟨h2, some (i + winX2 h0 h1 h2), s, winYe h0 h1 h2⟩) ∧
      (¬ h0 < 0 → windowStep i ⟨h0, r, s, y⟩ h1 h2 =
          ⟨h2, r, some (i + winX2 h0 h1 h2), winYe h0 h1 h2⟩)) ∧
    (|winX1 h0 h1 h2| ≤ 1 → |winX2 h0 h1 h2| ≤ 1 →
      (winYe h0 h1 h2 < 0 → windowStep i ⟨h0, r, s, y⟩ h1 h2 =
          ⟨h2, some (i + winX2 h0 h1 h2), some (i + winX1 h0 h1 h2),
            winYe h0 h1 h2⟩) ∧
      (¬ winYe h0 h1 h2 < 0 → windowStep i ⟨h0, r, s, y⟩ h1 h2 =
          ⟨h2, some (i + winX1 h0 h1 h2), some (i + winX2 h0 h1 h2),
            winYe h0 h1 h2⟩)) ∧
    (¬ |winX1 h0 h1 h2| ≤ 1 → ¬ |winX2 h0 h1 h2| ≤ 1 →
      windowStep i ⟨h0, r, s, y⟩ h1 h2 = ⟨h2, r, s, winYe h0 h1 h2⟩) ∧
    (∀ st : ScanState, st.rise = none → st.set = none →
      ((moonTimesFlags st).2.1 ↔ 0 < st.ye) ∧
      ((moonTimesFlags st).2.2 ↔ st.ye ≤ 0)) := by
  refine ⟨⟨winX1_le_winX2 h0 h1 h2, win_root1 h0 h1 h2 ha hd,
      win_root2 h0 h1 h2 ha hd⟩, ?_, ?_, ?_, ?_, ?_⟩
  · intro hx1 hx2
    have hxr : ¬ (winX1 h0 h1 h2 < -1) := not_lt.mpr (abs_le.mp hx1).1
    constructor
    · intro hh0
      unfold windowStep
      dsimp only
      rw [if_pos ⟨hd, ha⟩, if_pos hx1, if_neg hx2]
      norm_num
      rw [if_pos hh0, if_neg hxr]
    · intro hh0
      unfold windowStep
      dsimp only
      rw [if_pos ⟨hd, ha⟩, if_pos hx1, if_neg hx2]
      norm_num
      rw [if_neg hh0, if_neg hxr]
  · intro hx1 hx2
    have hxr : winX1 h0 h1 h2 < -1 := winX1_lt_neg_one hx1 hx2
    constructor
    · intro hh0
      unfold windowStep
      dsimp only
      rw [if_pos ⟨hd, ha⟩, if_neg hx1, if_pos hx2]
      norm_num
      rw [if_pos hh0, if_pos hxr]
    · intro hh0
      unfold windowStep
      dsimp only
      rw [if_pos ⟨hd, ha⟩, if_neg hx1, if_pos hx2]
      norm_num
      rw [if_neg hh0, if_pos hxr]
  · intro hx1 hx2
    constructor
    · intro hye
      unfold windowStep
      dsimp only
      rw [if_pos ⟨hd, ha⟩, if_pos hx1, if_pos hx2]
      norm_num
      exact ⟨fun hcon => absurd hcon (not_le.mpr hye),
        fun hcon => absurd hcon (not_le.mpr hye)⟩
    · intro hye
      unfold windowStep
      dsimp only
      rw [if_pos ⟨hd, ha⟩, if_pos hx1, if_pos hx2]
      norm_num
      exact ⟨fun hcon => absurd hcon hye, fun hcon => absurd hcon hye⟩
  · intro hx1 hx2
    unfold windowStep
    dsimp only
    rw [if_pos ⟨hd, ha⟩, if_neg hx1, if_neg hx2]
    norm_num
  · intro st hr hs
    constructor
    · unfold moonTimesFlags
      rw [hr, hs]
      simp [jsTruthy]
    · unfold moonTimesFlags
      rw [hr, hs]
      simp [jsTruthy]

open SunCalc3 Real in
/-- Witness for C6 on the concrete window (h0, h1, h2) = (-3, 2, 3)
starting at hour 1: the parabola is -2 x^2 + 3 x + 2 with roots -1/2 and
2, only the first in range, and the starting altitude is negative. -/
theorem moonTimes_window_classification_witness :
    (winX1 (-3) 2 3 ≤ winX2 (-3) 2 3 ∧
      winA (-3) 2 3 * winX1 (-3) 2 3 ^ 2 + winB (-3) 3 * winX1 (-3) 2 3 + 2 = 0 ∧
      winA (-3) 2 3 * winX2 (-3) 2 3 ^ 2 + winB (-3) 3 * winX2 (-3) 2 3 + 2 = 0) ∧
    (|winX1 (-3) 2 3| ≤ 1 → ¬ |winX2 (-3) 2 3| ≤ 1 →
      ((-3 : ℝ) < 0 → windowStep 1 ⟨-3, none, none, 0⟩ 2 3 =
          ⟨3, some (1 + winX1 (-3) 2 3), none, winYe (-3) 2 3⟩) ∧
      (¬ (-3 : ℝ) < 0 → windowStep 1 ⟨-3, none, none, 0⟩ 2 3 =
          ⟨3, none, some (1 + winX1 (-3) 2 3), winYe (-3) 2 3⟩)) ∧
    (¬ |winX1 (-3) 2 3| ≤ 1 → |winX2 (-3) 2 3| ≤ 1 →
      ((-3 : ℝ) < 0 → windowStep 1 ⟨-3, none, none, 0⟩ 2 3 =
          ⟨3, some (1 + winX2 (-3) 2 3), none, winYe (-3) 2 3⟩) ∧
      (¬ (-3 : ℝ) < 0 → windowStep 1 ⟨-3, none, none, 0⟩ 2 3 =
          ⟨3, none, some (1 + winX2 (-3) 2 3), winYe (-3) 2 3⟩)) ∧
    (|winX1 (-3) 2 3| ≤ 1 → |winX2 (-3) 2 3| ≤ 1 →
      (winYe (-3) 2 3 < 0 → windowStep 1 ⟨-3, none, none, 0⟩ 2 3 =
          ⟨3, some (1 + winX2 (-3) 2 3), some (1 + winX1 (-3) 2 3),
            winYe (-3) 2 3⟩) ∧
      (¬ winYe (-3) 2 3 < 0 → windowStep 1 ⟨-3, none, none, 0⟩ 2 3 =
          ⟨3, some (1 + winX1 (-3) 2 3), some (1 + winX2 (-3) 2 3),
            winYe (-3) 2 3⟩)) ∧
    (¬ |winX1 (-3) 2 3| ≤ 1 → ¬ |winX2 (-3) 2 3| ≤ 1 →
      windowStep 1 ⟨-3, none, none, 0⟩ 2 3 = ⟨3, none, none, winYe (-3) 2 3⟩) ∧
    (∀ st : ScanState, st.rise = none → st.set = none →
      ((moonTimesFlags st).2.1 ↔ 0 < st.ye) ∧
      ((moonTimesFlags st).2.2 ↔ st.ye ≤ 0)) :=
  moonTimes_window_classification 1 (-3) 2 3 none none 0
    (by norm_num [winA]) (by norm_num [winD, winA, winB])

namespace SunCalc3

open Real in
lemma altitudeCalc_mem (H phi dec : ℝ) :
    -(π / 2) ≤ altitudeCalc H phi dec ∧ altitudeCalc H phi dec ≤ π / 2 := by
  unfold altitudeCalc
  exact ⟨Real.neg_pi_div_two_le_arcsin _, Real.arcsin_le_pi_div_two _⟩

open Real in
lemma azimuthCalc_mem (H phi dec : ℝ) :
    0 < azimuthCalc H phi dec ∧ azimuthCalc H phi dec ≤ 2 * π := by
  unfold azimuthCalc
  constructor
  · linarith [neg_pi_lt_atan2 (Real.sin H)
      (Real.cos H * Real.sin phi - Real.tan dec * Real.cos phi)]
  · linarith [atan2_le_pi (Real.sin H)
      (Real.cos H * Real.sin phi - Real.tan dec * Real.cos phi)]

set_option maxHeartbeats 1000000 in
open Real in
/-- The Meeus refraction correction never pushes an altitude taken in
[-π/2, π/2] out of that interval: the correction is at most about
0.00846 rad and is only that large well below the zenith, while close to
the zenith the formula's argument passes π/2 and the correction becomes
a tiny negative number. -/
lemma astroRefraction_bounds {h : ℝ} (hlo : -(π / 2) ≤ h) (hhi : h ≤ π / 2) :
    -(π / 2) ≤ h + astroRefraction h ∧ h + astroRefraction h ≤ π / 2 := by
  have hπl : (3.141592 : ℝ) < π := pi_gt_d6
  have hπu : π < 3.141593 := pi_lt_d6
  obtain ⟨h', hh'⟩ : ∃ x : ℝ, x = if h < 0 then 0 else h := ⟨_, rfl⟩
  have hp0 : 0 ≤ h' := by
    rw [hh']
    split_ifs with hc
    · exact le_refl 0
    · exact not_lt.mp hc
  have hple : h' ≤ π / 2 := by
    rw [hh']
    split_ifs with hc
    · linarith
    · exact hhi
  have hhle : h ≤ h' := by
    rw [hh']
    split_ifs with hc
    · linarith
    · exact le_refl h
  obtain ⟨g, hg⟩ : ∃ x : ℝ, x = h' + 0.00312536 / (h' + 0.08901179) := ⟨_, rfl⟩
  have hrefr : astroRefraction h = 0.0002967 / Real.tan g := by
    rw [hg, hh']
    rfl
  have hm2 : (0 : ℝ) < h' + 0.08901179 := by linarith
  have hglb : (0.00188 : ℝ) ≤ 0.00312536 / (h' + 0.08901179) := by
    have h1 : h' + 0.08901179 ≤ 1.6598084 := by linarith
    calc (0.00188 : ℝ) ≤ 0.00312536 / 1.6598084 := by norm_num
    _ ≤ 0.00312536 / (h' + 0.08901179) :=
        div_le_div_of_nonneg_left (by norm_num) hm2 h1
  have hgub : 0.00312536 / (h' + 0.08901179) ≤ 0.0351177 := by
    calc 0.00312536 / (h' + 0.08901179) ≤ 0.00312536 / 0.08901179 :=
          div_le_div_of_nonneg_left (by norm_num) (by norm_num) (by linarith)
    _ ≤ 0.0351177 := by norm_num
  have hgk : (0.0351 : ℝ) ≤ g := by
    have key : g - 0.00312536 / 0.08901179 =
        h' * (((h' + 0.08901179) * 0.08901179 - 0.00312536) /
          (0.08901179 * (h' + 0.08901179))) := by
      rw [hg]
      field_simp
      ring
    have hnum : 0 ≤ ((h' + 0.08901179) * 0.08901179 - 0.00312536) /
        (0.08901179 * (h' + 0.08901179)) := by
      apply div_nonneg _ (mul_nonneg (by norm_num) (by linarith))
      nlinarith
    have hmn : 0 ≤ h' * (((h' + 0.08901179) * 0.08901179 - 0.00312536) /
        (0.08901179 * (h' + 0.08901179))) := mul_nonneg hp0 hnum
    have hkm : (0.0351 : ℝ) ≤ 0.00312536 / 0.08901179 := by norm_num
    linarith [key]
  have hgpos : (0 : ℝ) < g := lt_of_lt_of_le (by norm_num) hgk
  have hgub2 : g ≤ π / 2 + 0.0351177 := by
    have : g ≤ h' + 0.0351177 := by rw [hg]; linarith [hgub]
    linarith
  rcases lt_trichotomy (Real.tan g) 0 with htan | htan | htan
  · -- the correction is a tiny negative number; the altitude is near the zenith
    have hgt : π / 2 < g := by
      by_contra hle
      push_neg at hle
      rcases eq_or_lt_of_le hle with heq | hlt
      · rw [heq, Real.tan_pi_div_two] at htan
        norm_num at htan
      · have := Real.tan_pos_of_pos_of_lt_pi_div_two hgpos hlt
        linarith
    have hh'big : π / 2 - 0.0351177 ≤ h' := by
      have : g ≤ h' + 0.0351177 := by rw [hg]; linarith [hgub]
      linarith
    have hh0 : 0 ≤ h := by
      by_contra hneg
      push_neg at hneg
      rw [hh', if_pos hneg] at hh'big
      nlinarith
    have hh'eq : h' = h := by rw [hh', if_neg (not_lt.mpr hh0)]
    have hsin : (0.999 : ℝ) ≤ Real.sin g := by
      have e1 : Real.cos (g - π / 2) = Real.sin g := Real.cos_sub_pi_div_two g
      calc (0.999 : ℝ) ≤ 1 - (g - π / 2) ^ 2 / 2 := by nlinarith [hgt, hgub2]
      _ ≤ Real.cos (g - π / 2) := Real.one_sub_sq_div_two_le_cos
      _ = Real.sin g := e1
    have hcos : -Real.cos g ≤ 0.0351177 := by
      have e2 : Real.sin (g - π / 2) = -Real.cos g := Real.sin_sub_pi_div_two g
      rw [← e2]
      calc Real.sin (g - π / 2) ≤ g - π / 2 := Real.sin_le (by linarith)
      _ ≤ 0.0351177 := by linarith
    have hcosneg : Real.cos g < 0 := by
      have hsg : (0 : ℝ) < Real.sin g := by linarith
      rcases lt_trichotomy (Real.cos g) 0 with hcg | hcg | hcg
      · exact hcg
      · rw [Real.tan_eq_sin_div_cos, hcg, div_zero] at htan
        norm_num at htan
      · exfalso
        have : (0 : ℝ) < Real.tan g := by
          rw [Real.tan_eq_sin_div_cos]
          positivity
        linarith
    have htanlb : Real.tan g ≤ -28 := by
      rw [Real.tan_eq_sin_div_cos, div_le_iff_of_neg hcosneg]
      nlinarith [hsin, hcos]
    have hrb : -0.0000106 ≤ astroRefraction h := by
      rw [hrefr]
      have ht0 : Real.tan g < 0 := htan
      rw [le_div_iff_of_neg ht0]
      nlinarith [htanlb]
    have hru : astroRefraction h ≤ 0 := by
      rw [hrefr]
      exact div_nonpos_of_nonneg_of_nonpos (by norm_num) (le_of_lt htan)
    constructor
    · have hhb : π / 2 - 0.0351177 ≤ h := by
        rw [← hh'eq]
        exact hh'big
      linarith [hrb]
    · linarith
  · -- tan vanishes: the Lean value of the correction is 0
    have hz : astroRefraction h = 0 := by
      rw [hrefr, htan, div_zero]
    rw [hz]
    constructor <;> linarith
  · -- the correction is positive and bounded by about 0.00846
    have hrpos : 0 < astroRefraction h := by
      rw [hrefr]
      positivity
    have hglt : g < π / 2 := by
      by_contra hge
      push_neg at hge
      rcases eq_or_lt_of_le hge with heq | hlt2
      · rw [← heq, Real.tan_pi_div_two] at htan
        norm_num at htan
      · have hgltpi : g < π := by linarith [hgub2, hπl]
        have hsg : 0 ≤ Real.sin g :=
          Real.sin_nonneg_of_nonneg_of_le_pi (by linarith) (le_of_lt hgltpi)
        have hcg : Real.cos g ≤ 0 :=
          Real.cos_nonpos_of_pi_div_two_le_of_le (le_of_lt hlt2) (by nlinarith)
        have : Real.tan g ≤ 0 := by
          rw [Real.tan_eq_sin_div_cos]
          exact div_nonpos_of_nonneg_of_nonpos hsg hcg
        linarith
    have htgt : g < Real.tan g := Real.lt_tan hgpos hglt
    have hrub : astroRefraction h ≤ 0.008455 := by
      rw [hrefr]
      calc 0.0002967 / Real.tan g ≤ 0.0002967 / 0.0351 :=
            div_le_div_of_nonneg_left (by norm_num) (by norm_num) (by linarith)
      _ ≤ 0.008455 := by norm_num
    refine ⟨by linarith, ?_⟩
    rcases le_or_lt h (π / 2 - 0.008455) with hb | hb
    · linarith
    · have hh0 : 0 ≤ h := by nlinarith
      have hh'eq : h' = h := by rw [hh', if_neg (not_lt.mpr hh0)]
      have hg1 : h + 0.00188 ≤ g := by
        have hglb2 : (0.00188 : ℝ) ≤ 0.00312536 / (h + 0.08901179) := by
          rw [← hh'eq]
          exact hglb
        rw [hg, hh'eq]
        linarith [hglb2]
      have hu : (0.00188 : ℝ) < π / 2 - h := by linarith
      have hcosub : Real.cos g ≤ π / 2 - g := by
        have e3 : Real.sin (π / 2 - g) = Real.cos g := Real.sin_pi_div_two_sub g
        rw [← e3]
        exact Real.sin_le (by linarith)
      have hsinlb : (0.999 : ℝ) ≤ Real.sin g := by
        have e4 : Real.cos (π / 2 - g) = Real.sin g := Real.cos_pi_div_two_sub g
        calc (0.999 : ℝ) ≤ 1 - (π / 2 - g) ^ 2 / 2 := by nlinarith [hg1, hglt]
        _ ≤ Real.cos (π / 2 - g) := Real.one_sub_sq_div_two_le_cos
        _ = Real.sin g := e4
      have hfinal : astroRefraction h ≤ π / 2 - h := by
        rw [hrefr, Real.tan_eq_sin_div_cos, div_div_eq_mul_div]
        have hsg0 : (0 : ℝ) < Real.sin g := by linarith
        rw [div_le_iff₀ hsg0]
        have hcg2 : Real.cos g ≤ π / 2 - h - 0.00188 := by linarith [hcosub, hg1]
        nlinarith [hu, hsinlb, hcg2]
      linarith

end SunCalc3

open SunCalc3 Real in
/-- C5: for any instant and location, the altitude reported by both
getPosition and getMoonPosition lies in [-π/2, π/2] (for the moon,
including the refraction correction), and the azimuth is finite: it lies
in the bounded interval (0, 2π]. -/
theorem position_altitude_azimuth_bounds (t lat lng : ℝ) :
    (-(π / 2) ≤ (getPosition t lat lng).altitude ∧
        (getPosition t lat lng).altitude ≤ π / 2) ∧
      (0 < (getPosition t lat lng).azimuth ∧
        (getPosition t lat lng).azimuth ≤ 2 * π) ∧
      (-(π / 2) ≤ (getMoonPosition t lat lng).altitude ∧
        (getMoonPosition t lat lng).altitude ≤ π / 2) ∧
      (0 < (getMoonPosition t lat lng).azimuth ∧
        (getMoonPosition t lat lng).azimuth ≤ 2 * π) := by
  refine ⟨?_, ?_, ?_, ?_⟩
  · exact altitudeCalc_mem _ _ _
  · exact azimuthCalc_mem _ _ _
  · have hmem := altitudeCalc_mem
      (siderealTime (toDays t) (rad * -lng) - (moonCoords (toDays t)).ra)
      (rad * lat) (moonCoords (toDays t)).dec
    exact astroRefraction_bounds hmem.1 hmem.2
  · exact azimuthCalc_mem _ _ _

/-- C7: for every instant, the round trip through the julian-day
conversions returns the original instant exactly: in part_000 via
`fromJulian ∘ toJulian`, and in index.ts via `fromJulianDay` applied to
the julian day `toDays t + J2000`, both built from the fixed epoch
constants and the day-length-in-ms constant. -/
theorem julian_roundtrip_exact (t : ℝ) :
    SunCalcJS.fromJulian (SunCalcJS.toJulian t) = t ∧
      SunCalc3.fromJulianDay (SunCalc3.toDays t + SunCalc3.J2000) = t := by
  constructor
  · unfold SunCalcJS.fromJulian SunCalcJS.toJulian SunCalcJS.dayMs SunCalcJS.J1970
    norm_num
    field_simp
    ring
  · unfold SunCalc3.fromJulianDay SunCalc3.toDays SunCalc3.J2000 SunCalc3.J1970 SunCalc3.dayMs
    norm_num
